import Mathlib

/-!
Shallow embedding of the QuoteSlate admission-control middleware
(`middleware.js`): the adaptive rate-limiting and progressive IP-blocking
subsystem.  Module-level state (`blockedIPs`, `lastBlocklistRefresh`,
`requestCounts`, `violationCounts`, the Edge Config value of the
`blocked_ips` key) becomes an explicit `World`; the exported `middleware`
function becomes a pure step function from a request (identity and
timestamp) and a `World` to a `Response` and a new `World`.

Timestamps and counters are `Nat` (`Date.now()` is nonnegative and the
refresh guard compares a difference against a positive constant, so
truncated subtraction agrees with JavaScript arithmetic).  The JavaScript
`Map`s are association lists, the `Set` of blocked addresses is a
deduplicated list, and the shared Edge Config store is the optional list
stored under its `blocked_ips` key.  Store calls that may throw, and an
unexpected exception inside the rate-limiting body (caught by the
top-level `try`/`catch`, line 146, which lets the request through), are
driven by an explicit `ExcSchedule`.  The fields `refreshGets`,
`refreshOks` and `promoteGets` of `World` are ghost instrumentation
counting the Edge Config `get` calls the middleware issues; they influence
no behaviour.
-/

-- Configuration constants, middleware.js lines 14-17.
def RATE_LIMIT : Nat := 100

def RATE_WINDOW_MS : Nat := 15 * 60 * 1000

def VIOLATION_THRESHOLD : Nat := 3

def BLOCKLIST_REFRESH_MS : Nat := 5 * 60 * 1000

-- One entry of `requestCounts`: `{ count, expires }`, lines 75-78.
structure WindowRecord where
  count : Nat
  expires : Nat
deriving DecidableEq

-- The three response shapes middleware.js produces: `NextResponse.next()`
-- (forward to the API), the 403 bodies, and the 429 body of lines 125-141.
inductive Response where
  | next
  | forbidden
  | tooMany (retryAfter : Nat) (violationCount : Nat) (threshold : Nat)
deriving DecidableEq

-- HTTP status of each response (`next` forwards, so the client sees the
-- collaborator's ordinary 200).
def Response.status : Response → Nat
  | .next => 200
  | .forbidden => 403
  | .tooMany _ _ _ => 429

-- Which store calls throw during one request, and whether an unexpected
-- exception is raised inside the rate-limiting body (the latter is caught
-- only by the top-level catch of line 146).
structure ExcSchedule where
  refreshGetErr : Bool
  bodyExc : Bool
  promoteGetErr : Bool
  promoteSetErr : Bool
deriving DecidableEq

def noExc : ExcSchedule := ⟨false, false, false, false⟩

def excRefreshErr : ExcSchedule := ⟨true, false, false, false⟩

def excBodyErr : ExcSchedule := ⟨false, true, false, false⟩

def excPromoteGetErr : ExcSchedule := ⟨false, false, true, false⟩

def excPromoteSetErr : ExcSchedule := ⟨false, false, false, true⟩

-- Process state of one middleware instance plus the shared store.
structure World where
  blockedIPs : List String
  lastBlocklistRefresh : Nat
  requestCounts : List (String × WindowRecord)
  violationCounts : List (String × Nat)
  edgeConfig : Bool
  store : Option (List String)
  refreshGets : Nat
  refreshOks : Nat
  promoteGets : Nat
deriving DecidableEq

-- Module initialization, middleware.js lines 10-26.
def initialWorld (ec : Bool) (st : Option (List String)) : World :=
  ⟨[], 0, [], [], ec, st, 0, 0, 0⟩

-- `Map.get`: the first binding of the key, if any.
def lookupKey {α : Type} (m : List (String × α)) (k : String) : Option α :=
  match m with
  | [] => none
  | e :: rest => if e.fst = k then some e.snd else lookupKey rest k

-- `Map.set`: replace the binding of the key, or append a fresh one.
def setKey {α : Type} (m : List (String × α)) (k : String) (v : α) :
    List (String × α) :=
  match m with
  | [] => [(k, v)]
  | e :: rest => if e.fst = k then (k, v) :: rest else e :: setKey rest k v

-- `Set.add`: insert if absent.
def addIP (s : List String) (ip : String) : List String :=
  if ip ∈ s then s else s ++ [ip]

-- JavaScript `Map`s have unique keys; association lists satisfying this
-- predicate model them exactly.
@[reducible] def wfKeys {α : Type} (m : List (String × α)) : Prop :=
  (m.map Prod.fst).Nodup

-- Lines 64-71: drop every window record with `now > expires`, and drop the
-- violation entry of every identity whose window record was dropped.  The
-- filter keeps an entry when `¬ (now > expires)`, i.e. `now ≤ expires`.
def purgeRc (now : Nat) (rc : List (String × WindowRecord)) :
    List (String × WindowRecord) :=
  rc.filter (fun e => decide (now ≤ e.snd.expires))

def purgeVc (now : Nat) (rc : List (String × WindowRecord))
    (vc : List (String × Nat)) : List (String × Nat) :=
  vc.filter (fun e =>
    match lookupKey rc e.fst with
    | some d => decide (now ≤ d.expires)
    | none => true)

-- Lines 96-111: best-effort append of the identity to the store list.  The
-- `get`, and the `set` when the identity is absent, may each throw; both
-- are caught by the inner catch of line 105 (the store is then unchanged).
def promoteStore (exc : ExcSchedule) (w : World) (ip : String) : World :=
  if w.edgeConfig = true then
    if exc.promoteGetErr = true then { w with promoteGets := w.promoteGets + 1 }
    else
      let cur := w.store.getD []
      let w1 := { w with promoteGets := w.promoteGets + 1 }
      if ip ∈ cur then w1
      else if exc.promoteSetErr = true then w1
      else { w1 with store := some (cur ++ [ip]) }
  else w

-- The read-modify-write of lines 98-100 as a function on the store list:
-- read the current list, add the identity if absent, write the result.
def promoteStoreUpdate (cur : List String) (ip : String) : List String :=
  if ip ∈ cur then cur else cur ++ [ip]

-- The state produced by a successful blocklist refresh, lines 47-49:
-- replace the local cache by the fetched list and stamp the time.
def refreshedWorld (now : Nat) (w : World) : World :=
  { w with blockedIPs := (w.store.getD []).dedup,
           lastBlocklistRefresh := now,
           refreshGets := w.refreshGets + 1,
           refreshOks := w.refreshOks + 1 }

-- Lines 45-62: the periodic refresh.  `some r` short-circuits with `r`.
-- A thrown `get` is caught at line 59 and only counted.
def refreshStep (exc : ExcSchedule) (ip : String) (now : Nat) (w : World) :
    Option Response × World :=
  if w.edgeConfig = true ∧ BLOCKLIST_REFRESH_MS < now - w.lastBlocklistRefresh then
    if exc.refreshGetErr = true then
      (none, { w with refreshGets := w.refreshGets + 1 })
    else if ip ∈ (refreshedWorld now w).blockedIPs then
      (some Response.forbidden, refreshedWorld now w)
    else (none, refreshedWorld now w)
  else (none, w)

-- Lines 64-145: purge, count, and the overflow/violation/blocking logic.
def rateStep (exc : ExcSchedule) (ip : String) (now : Nat) (w : World) :
    Response × World :=
  let rc1 := purgeRc now w.requestCounts
  let vc1 := purgeVc now w.requestCounts w.violationCounts
  let data : WindowRecord :=
    match lookupKey rc1 ip with
    | none => ⟨1, now + RATE_WINDOW_MS⟩
    | some d => ⟨d.count + 1, d.expires⟩
  let rc2 := setKey rc1 ip data
  let w2 := { w with requestCounts := rc2, violationCounts := vc1 }
  if RATE_LIMIT < data.count then
    let currentViolations := (lookupKey vc1 ip).getD 0 + 1
    let w3 := { w2 with violationCounts := setKey vc1 ip currentViolations }
    if VIOLATION_THRESHOLD ≤ currentViolations then
      (Response.forbidden,
        promoteStore exc { w3 with blockedIPs := addIP w3.blockedIPs ip } ip)
    else
      (Response.tooMany ((data.expires - now + 999) / 1000) currentViolations
        VIOLATION_THRESHOLD, w3)
  else (Response.next, w2)

-- Lines 31-151: the exported middleware.  The blocked-cache check runs
-- first; then the refresh; an unexpected exception in the remaining body
-- reaches the top-level catch, which forwards the request (line 149).
def middleware (exc : ExcSchedule) (ip : String) (now : Nat) (w : World) :
    Response × World :=
  if ip ∈ w.blockedIPs then (Response.forbidden, w)
  else
    match refreshStep exc ip now w with
    | (some r, w1) => (r, w1)
    | (none, w1) =>
      if exc.bodyExc = true then (Response.next, w1)
      else rateStep exc ip now w1

-- Run one identity through the gate at a list of timestamps.
def processSeq (exc : ExcSchedule) (ip : String) :
    List Nat → World → List Response × World
  | [], w => ([], w)
  | t :: ts, w =>
    let p := middleware exc ip t w
    let q := processSeq exc ip ts p.snd
    (p.fst :: q.fst, q.snd)

-- Run a trace of requests (schedule, identity, timestamp) through the gate.
def runTrace : List (ExcSchedule × String × Nat) → World → List Response × World
  | [], w => ([], w)
  | r :: rest, w =>
    let p := middleware r.fst r.snd.fst r.snd.snd w
    let q := runTrace rest p.snd
    (p.fst :: q.fst, q.snd)

set_option maxRecDepth 1000000

/-! ### Association-list lemmas -/

theorem lookupKey_setKey_self {α : Type} (m : List (String × α)) (k : String)
    (v : α) : lookupKey (setKey m k v) k = some v := by
  induction m with
  | nil => simp [setKey, lookupKey]
  | cons e rest ih =>
    by_cases h : e.fst = k
    · simp [setKey, lookupKey, h]
    · simp [setKey, lookupKey, h, ih]

theorem lookupKey_filter_of_none {α : Type} {m : List (String × α)} {k : String}
    (p : String × α → Bool) (h : lookupKey m k = none) :
    lookupKey (m.filter p) k = none := by
  induction m with
  | nil => simp [lookupKey]
  | cons e rest ih =>
    simp only [lookupKey] at h
    by_cases he : e.fst = k
    · simp [he] at h
    · rw [List.filter_cons]
      split
      · simpa [lookupKey, he] using ih (by simpa [he] using h)
      · exact ih (by simpa [he] using h)

theorem lookupKey_filter_of_true {α : Type} {m : List (String × α)} {k : String}
    {p : String × α → Bool} (h : ∀ v, (k, v) ∈ m → p (k, v) = true) :
    lookupKey (m.filter p) k = lookupKey m k := by
  induction m with
  | nil => simp
  | cons e rest ih =>
    obtain ⟨k1, v1⟩ := e
    by_cases he : k1 = k
    · subst he
      have hp : p (k1, v1) = true := h v1 (List.mem_cons_self _ _)
      rw [List.filter_cons, if_pos hp]
      simp [lookupKey]
    · have ih' := ih (fun v hv => h v (List.mem_cons_of_mem _ hv))
      rw [List.filter_cons]
      split
      · simp [lookupKey, he, ih']
      · simp [lookupKey, he, ih']

theorem lookupKey_filter_of_false {α : Type} {m : List (String × α)} {k : String}
    {p : String × α → Bool} (h : ∀ v, (k, v) ∈ m → p (k, v) = false) :
    lookupKey (m.filter p) k = none := by
  induction m with
  | nil => simp [lookupKey]
  | cons e rest ih =>
    obtain ⟨k1, v1⟩ := e
    by_cases he : k1 = k
    · subst he
      have hp : p (k1, v1) = false := h v1 (List.mem_cons_self _ _)
      rw [List.filter_cons, if_neg (by simp [hp])]
      exact ih (fun v hv => h v (List.mem_cons_of_mem _ hv))
    · have ih' := ih (fun v hv => h v (List.mem_cons_of_mem _ hv))
      rw [List.filter_cons]
      split
      · simp [lookupKey, he, ih']
      · exact ih'

theorem lookupKey_filter_keep {α : Type} {m : List (String × α)} {k : String}
    {v : α} {p : String × α → Bool} (h1 : lookupKey m k = some v)
    (h2 : p (k, v) = true) : lookupKey (m.filter p) k = some v := by
  induction m with
  | nil => simp [lookupKey] at h1
  | cons e rest ih =>
    obtain ⟨k1, v1⟩ := e
    by_cases he : k1 = k
    · subst he
      simp only [lookupKey, if_pos rfl] at h1
      obtain rfl : v1 = v := by simpa using h1
      rw [List.filter_cons, if_pos h2]
      simp [lookupKey]
    · simp only [lookupKey, if_neg he] at h1
      rw [List.filter_cons]
      split
      · simp [lookupKey, he, ih h1]
      · exact ih h1

theorem lookupKey_mem {α : Type} {m : List (String × α)} {k : String} {v : α}
    (h : lookupKey m k = some v) : (k, v) ∈ m := by
  induction m with
  | nil => simp [lookupKey] at h
  | cons e rest ih =>
    obtain ⟨k1, v1⟩ := e
    by_cases he : k1 = k
    · subst he
      simp only [lookupKey, if_pos rfl] at h
      obtain rfl : v1 = v := by simpa using h
      exact List.mem_cons_self _ _
    · simp only [lookupKey, if_neg he] at h
      exact List.mem_cons_of_mem _ (ih h)

theorem wfKeys_lookup_unique {α : Type} {m : List (String × α)} {k : String}
    {v : α} (hwf : wfKeys m) (h : lookupKey m k = some v) :
    ∀ v', (k, v') ∈ m → v' = v := by
  induction m with
  | nil => simp
  | cons e rest ih =>
    obtain ⟨k1, v1⟩ := e
    obtain ⟨hk1, hrest⟩ := by
      simpa [wfKeys, List.nodup_cons] using hwf
    intro v' hv'
    by_cases he : k1 = k
    · subst he
      simp only [lookupKey, if_pos rfl] at h
      obtain rfl : v1 = v := by simpa using h
      rcases List.mem_cons.mp hv' with h' | h'
      · exact (Prod.mk.injEq _ _ _ _).mp h' |>.2
      · exact absurd (List.mem_map_of_mem Prod.fst h') (by simpa using hk1)
    · simp only [lookupKey, if_neg he] at h
      rcases List.mem_cons.mp hv' with h' | h'
      · exact absurd ((Prod.mk.injEq _ _ _ _).mp h').1.symm he
      · exact ih hrest h v' h'

/-! ### Purge lemmas -/

theorem purgeRc_lookup_live {now : Nat} {rc : List (String × WindowRecord)}
    {ip : String} {d : WindowRecord} (h : lookupKey rc ip = some d)
    (hl : now ≤ d.expires) : lookupKey (purgeRc now rc) ip = some d :=
  lookupKey_filter_keep h (by simpa using hl)

theorem purgeRc_lookup_none (now : Nat) {rc : List (String × WindowRecord)}
    {ip : String} (h : lookupKey rc ip = none) :
    lookupKey (purgeRc now rc) ip = none :=
  lookupKey_filter_of_none _ h

theorem purgeRc_lookup_expired {now : Nat} {rc : List (String × WindowRecord)}
    {ip : String} {d : WindowRecord} (hwf : wfKeys rc)
    (h : lookupKey rc ip = some d) (he : d.expires < now) :
    lookupKey (purgeRc now rc) ip = none := by
  refine lookupKey_filter_of_false (fun v hv => ?_)
  obtain rfl : v = d := wfKeys_lookup_unique hwf h v hv
  simpa using Nat.not_le.mpr he

theorem purgeVc_lookup_live {now : Nat} {rc : List (String × WindowRecord)}
    {vc : List (String × Nat)} {ip : String} {d : WindowRecord}
    (h : lookupKey rc ip = some d) (hl : now ≤ d.expires) :
    lookupKey (purgeVc now rc vc) ip = lookupKey vc ip := by
  refine lookupKey_filter_of_true (fun v _ => ?_)
  simp only [h]
  simpa using hl

theorem purgeVc_lookup_norec (now : Nat) {rc : List (String × WindowRecord)}
    {vc : List (String × Nat)} {ip : String}
    (h : lookupKey rc ip = none) :
    lookupKey (purgeVc now rc vc) ip = lookupKey vc ip := by
  refine lookupKey_filter_of_true (fun v _ => ?_)
  simp only [h]

theorem purgeVc_lookup_expired {now : Nat} {rc : List (String × WindowRecord)}
    {vc : List (String × Nat)} {ip : String} {d : WindowRecord}
    (h : lookupKey rc ip = some d) (he : d.expires < now) :
    lookupKey (purgeVc now rc vc) ip = none := by
  refine lookupKey_filter_of_false (fun v _ => ?_)
  simp only [h]
  simpa using Nat.not_le.mpr he

/-! ### Blocked-set lemmas -/

theorem addIP_mem_self (s : List String) (ip : String) : ip ∈ addIP s ip := by
  unfold addIP
  split
  · assumption
  · simp

theorem addIP_mem_mono {s : List String} {x : String} (ip : String)
    (h : x ∈ s) : x ∈ addIP s ip := by
  unfold addIP
  split
  · exact h
  · exact List.mem_append_left _ h

theorem addIP_not_mem {s : List String} {x ip : String} (hx : x ≠ ip)
    (h : x ∉ s) : x ∉ addIP s ip := by
  unfold addIP
  split
  · exact h
  · simp [h, hx]

/-! ### Case lemmas for the refresh step -/

theorem refreshStep_no_trigger {exc : ExcSchedule} {ip : String} {now : Nat}
    {w : World}
    (h : ¬ (w.edgeConfig = true ∧ BLOCKLIST_REFRESH_MS < now - w.lastBlocklistRefresh)) :
    refreshStep exc ip now w = (none, w) := by
  unfold refreshStep
  rw [if_neg h]

theorem refreshStep_get_err {exc : ExcSchedule} {ip : String} {now : Nat}
    {w : World}
    (h : w.edgeConfig = true ∧ BLOCKLIST_REFRESH_MS < now - w.lastBlocklistRefresh)
    (he : exc.refreshGetErr = true) :
    refreshStep exc ip now w = (none, { w with refreshGets := w.refreshGets + 1 }) := by
  unfold refreshStep
  rw [if_pos h, if_pos he]

theorem refreshStep_ok_miss {exc : ExcSchedule} {ip : String} {now : Nat}
    {w : World}
    (h : w.edgeConfig = true ∧ BLOCKLIST_REFRESH_MS < now - w.lastBlocklistRefresh)
    (he : exc.refreshGetErr = false) (hm : ip ∉ (refreshedWorld now w).blockedIPs) :
    refreshStep exc ip now w = (none, refreshedWorld now w) := by
  unfold refreshStep
  rw [if_pos h, if_neg (by simp [he]), if_neg hm]

theorem refreshStep_ok_hit {exc : ExcSchedule} {ip : String} {now : Nat}
    {w : World}
    (h : w.edgeConfig = true ∧ BLOCKLIST_REFRESH_MS < now - w.lastBlocklistRefresh)
    (he : exc.refreshGetErr = false) (hm : ip ∈ (refreshedWorld now w).blockedIPs) :
    refreshStep exc ip now w = (some Response.forbidden, refreshedWorld now w) := by
  unfold refreshStep
  rw [if_pos h, if_neg (by simp [he]), if_pos hm]


/-! ### Frame facts for the promote step -/

theorem promoteStore_frame (exc : ExcSchedule) (w : World) (ip : String) :
    (promoteStore exc w ip).blockedIPs = w.blockedIPs ∧
    (promoteStore exc w ip).requestCounts = w.requestCounts ∧
    (promoteStore exc w ip).violationCounts = w.violationCounts ∧
    (promoteStore exc w ip).lastBlocklistRefresh = w.lastBlocklistRefresh ∧
    (promoteStore exc w ip).refreshGets = w.refreshGets ∧
    (promoteStore exc w ip).refreshOks = w.refreshOks ∧
    (promoteStore exc w ip).edgeConfig = w.edgeConfig := by
  simp only [promoteStore]
  split_ifs <;> simp

/-! ### Equation lemmas for the rate-limiting step -/

theorem rateStep_fresh {exc : ExcSchedule} {ip : String} {now : Nat} {w : World}
    (h : lookupKey (purgeRc now w.requestCounts) ip = none) :
    rateStep exc ip now w =
      (Response.next,
       { w with
         requestCounts :=
           setKey (purgeRc now w.requestCounts) ip ⟨1, now + RATE_WINDOW_MS⟩,
         violationCounts := purgeVc now w.requestCounts w.violationCounts }) := by
  simp only [rateStep, h]
  norm_num [RATE_LIMIT]

theorem rateStep_incr_pass {exc : ExcSchedule} {ip : String} {now : Nat}
    {w : World} {d : WindowRecord}
    (h : lookupKey (purgeRc now w.requestCounts) ip = some d)
    (hc : d.count + 1 ≤ RATE_LIMIT) :
    rateStep exc ip now w =
      (Response.next,
       { w with
         requestCounts :=
           setKey (purgeRc now w.requestCounts) ip ⟨d.count + 1, d.expires⟩,
         violationCounts := purgeVc now w.requestCounts w.violationCounts }) := by
  simp only [rateStep, h]
  rw [if_neg (by simpa using Nat.not_lt.mpr hc)]

theorem rateStep_over_429 {exc : ExcSchedule} {ip : String} {now : Nat}
    {w : World} {d : WindowRecord}
    (h : lookupKey (purgeRc now w.requestCounts) ip = some d)
    (hc : RATE_LIMIT < d.count + 1)
    (hv : (lookupKey (purgeVc now w.requestCounts w.violationCounts) ip).getD 0 + 1
      < VIOLATION_THRESHOLD) :
    rateStep exc ip now w =
      (Response.tooMany ((d.expires - now + 999) / 1000)
        ((lookupKey (purgeVc now w.requestCounts w.violationCounts) ip).getD 0 + 1)
        VIOLATION_THRESHOLD,
       { w with
         requestCounts :=
           setKey (purgeRc now w.requestCounts) ip ⟨d.count + 1, d.expires⟩,
         violationCounts :=
           setKey (purgeVc now w.requestCounts w.violationCounts) ip
             ((lookupKey (purgeVc now w.requestCounts w.violationCounts) ip).getD 0 + 1) }) := by
  simp only [rateStep, h]
  rw [if_pos (by simpa using hc), if_neg (by simpa using Nat.not_le.mpr hv)]

theorem rateStep_over_block {exc : ExcSchedule} {ip : String} {now : Nat}
    {w : World} {d : WindowRecord}
    (h : lookupKey (purgeRc now w.requestCounts) ip = some d)
    (hc : RATE_LIMIT < d.count + 1)
    (hv : VIOLATION_THRESHOLD ≤
      (lookupKey (purgeVc now w.requestCounts w.violationCounts) ip).getD 0 + 1) :
    rateStep exc ip now w =
      (Response.forbidden,
       promoteStore exc
         { w with
           requestCounts :=
             setKey (purgeRc now w.requestCounts) ip ⟨d.count + 1, d.expires⟩,
           violationCounts :=
             setKey (purgeVc now w.requestCounts w.violationCounts) ip
               ((lookupKey (purgeVc now w.requestCounts w.violationCounts) ip).getD 0 + 1),
           blockedIPs := addIP w.blockedIPs ip } ip) := by
  simp only [rateStep, h]
  rw [if_pos (by simpa using hc), if_pos (by simpa using hv)]

theorem rateStep_frame (exc : ExcSchedule) (ip : String) (now : Nat) (w : World) :
    (rateStep exc ip now w).snd.refreshOks = w.refreshOks ∧
    (rateStep exc ip now w).snd.refreshGets = w.refreshGets ∧
    (rateStep exc ip now w).snd.lastBlocklistRefresh = w.lastBlocklistRefresh ∧
    (rateStep exc ip now w).snd.edgeConfig = w.edgeConfig := by
  obtain ⟨-, -, -, h4, h5, h6, h7⟩ :=
    promoteStore_frame exc
      { w with
        requestCounts :=
          setKey (purgeRc now w.requestCounts) ip
            (match lookupKey (purgeRc now w.requestCounts) ip with
             | none => ⟨1, now + RATE_WINDOW_MS⟩
             | some d => ⟨d.count + 1, d.expires⟩),
        violationCounts :=
          setKey (purgeVc now w.requestCounts w.violationCounts) ip
            ((lookupKey (purgeVc now w.requestCounts w.violationCounts) ip).getD 0 + 1),
        blockedIPs := addIP w.blockedIPs ip } ip
  simp only [rateStep]
  split_ifs <;> simp_all

theorem rateStep_blocked_mono {exc : ExcSchedule} {ip q : String} {now : Nat}
    {w : World} (h : q ∈ w.blockedIPs) :
    q ∈ (rateStep exc ip now w).snd.blockedIPs := by
  have hps := (promoteStore_frame exc
    { w with
      requestCounts :=
        setKey (purgeRc now w.requestCounts) ip
          (match lookupKey (purgeRc now w.requestCounts) ip with
           | none => ⟨1, now + RATE_WINDOW_MS⟩
           | some d => ⟨d.count + 1, d.expires⟩),
      violationCounts :=
        setKey (purgeVc now w.requestCounts w.violationCounts) ip
          ((lookupKey (purgeVc now w.requestCounts w.violationCounts) ip).getD 0 + 1),
      blockedIPs := addIP w.blockedIPs ip } ip).1
  simp only [rateStep]
  split_ifs <;> simp_all [addIP_mem_mono ip h]

theorem rateStep_blocked_same {exc : ExcSchedule} {ip : String} {now : Nat}
    {w : World}
    (hpass : (rateStep exc ip now w).fst ≠ Response.forbidden) :
    (rateStep exc ip now w).snd.blockedIPs = w.blockedIPs := by
  simp only [rateStep] at hpass ⊢
  split_ifs at hpass ⊢ <;> simp_all

/-! ### One-step lemmas for the whole middleware -/

theorem mw_blocked {exc : ExcSchedule} {ip : String} {now : Nat} {w : World}
    (hb : ip ∈ w.blockedIPs) :
    middleware exc ip now w = (Response.forbidden, w) := by
  unfold middleware
  rw [if_pos hb]

theorem middleware_not_blocked (exc : ExcSchedule) (ip : String) (now : Nat)
    (w : World) (hb : ip ∉ w.blockedIPs) (hs : ip ∉ w.store.getD []) :
    ∃ w1, middleware exc ip now w =
        (if exc.bodyExc = true then (Response.next, w1)
         else rateStep exc ip now w1) ∧
      w1.requestCounts = w.requestCounts ∧
      w1.violationCounts = w.violationCounts ∧
      w1.store = w.store ∧
      w1.edgeConfig = w.edgeConfig ∧
      ip ∉ w1.blockedIPs := by
  unfold middleware
  rw [if_neg hb]
  by_cases htr :
      w.edgeConfig = true ∧ BLOCKLIST_REFRESH_MS < now - w.lastBlocklistRefresh
  · by_cases hge : exc.refreshGetErr = true
    · rw [refreshStep_get_err htr hge]
      exact ⟨{ w with refreshGets := w.refreshGets + 1 }, rfl, rfl, rfl, rfl, rfl, hb⟩
    · have hm : ip ∉ (refreshedWorld now w).blockedIPs := by
        simpa [refreshedWorld, List.mem_dedup] using hs
      rw [refreshStep_ok_miss htr (by simpa using hge) hm]
      exact ⟨refreshedWorld now w, rfl, rfl, rfl, rfl, rfl, hm⟩
  · rw [refreshStep_no_trigger htr]
    exact ⟨w, rfl, rfl, rfl, rfl, rfl, hb⟩

theorem mw_fresh {exc : ExcSchedule} {ip : String} {now : Nat} {w : World}
    (hb : ip ∉ w.blockedIPs) (hs : ip ∉ w.store.getD [])
    (hbody : exc.bodyExc = false)
    (hrc : lookupKey w.requestCounts ip = none) :
    (middleware exc ip now w).fst = Response.next ∧
    lookupKey (middleware exc ip now w).snd.requestCounts ip
      = some ⟨1, now + RATE_WINDOW_MS⟩ ∧
    lookupKey (middleware exc ip now w).snd.violationCounts ip
      = lookupKey w.violationCounts ip ∧
    ip ∉ (middleware exc ip now w).snd.blockedIPs ∧
    (middleware exc ip now w).snd.store = w.store ∧
    (middleware exc ip now w).snd.edgeConfig = w.edgeConfig := by
  obtain ⟨w1, heq, h1, h2, h3, h4, h5⟩ := middleware_not_blocked exc ip now w hb hs
  have hrc1 : lookupKey w1.requestCounts ip = none := by rw [h1]; exact hrc
  rw [heq, if_neg (by simp [hbody]), rateStep_fresh (purgeRc_lookup_none now hrc1)]
  refine ⟨rfl, lookupKey_setKey_self _ _ _, ?_, h5, h3, h4⟩
  show lookupKey (purgeVc now w1.requestCounts w1.violationCounts) ip
    = lookupKey w.violationCounts ip
  rw [purgeVc_lookup_norec now hrc1, h2]

theorem mw_incr {exc : ExcSchedule} {ip : String} {now : Nat} {w : World}
    {d : WindowRecord}
    (hb : ip ∉ w.blockedIPs) (hs : ip ∉ w.store.getD [])
    (hbody : exc.bodyExc = false)
    (hrc : lookupKey w.requestCounts ip = some d) (hnow : now ≤ d.expires)
    (hc : d.count + 1 ≤ RATE_LIMIT) :
    (middleware exc ip now w).fst = Response.next ∧
    lookupKey (middleware exc ip now w).snd.requestCounts ip
      = some ⟨d.count + 1, d.expires⟩ ∧
    lookupKey (middleware exc ip now w).snd.violationCounts ip
      = lookupKey w.violationCounts ip ∧
    ip ∉ (middleware exc ip now w).snd.blockedIPs ∧
    (middleware exc ip now w).snd.store = w.store ∧
    (middleware exc ip now w).snd.edgeConfig = w.edgeConfig := by
  obtain ⟨w1, heq, h1, h2, h3, h4, h5⟩ := middleware_not_blocked exc ip now w hb hs
  have hrc1 : lookupKey w1.requestCounts ip = some d := by rw [h1]; exact hrc
  rw [heq, if_neg (by simp [hbody]),
    rateStep_incr_pass (purgeRc_lookup_live hrc1 hnow) hc]
  refine ⟨rfl, lookupKey_setKey_self _ _ _, ?_, h5, h3, h4⟩
  show lookupKey (purgeVc now w1.requestCounts w1.violationCounts) ip
    = lookupKey w.violationCounts ip
  rw [purgeVc_lookup_live hrc1 hnow, h2]

theorem mw_over_429 {exc : ExcSchedule} {ip : String} {now : Nat} {w : World}
    {d : WindowRecord}
    (hb : ip ∉ w.blockedIPs) (hs : ip ∉ w.store.getD [])
    (hbody : exc.bodyExc = false)
    (hrc : lookupKey w.requestCounts ip = some d) (hnow : now ≤ d.expires)
    (hc : RATE_LIMIT < d.count + 1)
    (hv : (lookupKey w.violationCounts ip).getD 0 + 1 < VIOLATION_THRESHOLD) :
    (middleware exc ip now w).fst
      = Response.tooMany ((d.expires - now + 999) / 1000)
          ((lookupKey w.violationCounts ip).getD 0 + 1) VIOLATION_THRESHOLD ∧
    lookupKey (middleware exc ip now w).snd.requestCounts ip
      = some ⟨d.count + 1, d.expires⟩ ∧
    lookupKey (middleware exc ip now w).snd.violationCounts ip
      = some ((lookupKey w.violationCounts ip).getD 0 + 1) ∧
    ip ∉ (middleware exc ip now w).snd.blockedIPs ∧
    (middleware exc ip now w).snd.store = w.store ∧
    (middleware exc ip now w).snd.edgeConfig = w.edgeConfig := by
  obtain ⟨w1, heq, h1, h2, h3, h4, h5⟩ := middleware_not_blocked exc ip now w hb hs
  have hrc1 : lookupKey w1.requestCounts ip = some d := by rw [h1]; exact hrc
  have hvc1 : lookupKey (purgeVc now w1.requestCounts w1.violationCounts) ip
      = lookupKey w.violationCounts ip := by
    rw [purgeVc_lookup_live hrc1 hnow, h2]
  have hv1 : (lookupKey (purgeVc now w1.requestCounts w1.violationCounts) ip).getD 0 + 1
      < VIOLATION_THRESHOLD := by rw [hvc1]; exact hv
  rw [heq, if_neg (by simp [hbody]),
    rateStep_over_429 (purgeRc_lookup_live hrc1 hnow) hc hv1]
  refine ⟨?_, lookupKey_setKey_self _ _ _, ?_, h5, h3, h4⟩
  · show Response.tooMany ((d.expires - now + 999) / 1000)
      ((lookupKey (purgeVc now w1.requestCounts w1.violationCounts) ip).getD 0 + 1)
      VIOLATION_THRESHOLD
      = Response.tooMany ((d.expires - now + 999) / 1000)
        ((lookupKey w.violationCounts ip).getD 0 + 1) VIOLATION_THRESHOLD
    rw [hvc1]
  · show lookupKey
      (setKey (purgeVc now w1.requestCounts w1.violationCounts) ip
        ((lookupKey (purgeVc now w1.requestCounts w1.violationCounts) ip).getD 0 + 1)) ip
      = some ((lookupKey w.violationCounts ip).getD 0 + 1)
    rw [lookupKey_setKey_self, hvc1]

theorem mw_over_block {exc : ExcSchedule} {ip : String} {now : Nat} {w : World}
    {d : WindowRecord}
    (hb : ip ∉ w.blockedIPs) (hs : ip ∉ w.store.getD [])
    (hbody : exc.bodyExc = false)
    (hrc : lookupKey w.requestCounts ip = some d) (hnow : now ≤ d.expires)
    (hc : RATE_LIMIT < d.count + 1)
    (hv : VIOLATION_THRESHOLD ≤ (lookupKey w.violationCounts ip).getD 0 + 1) :
    (middleware exc ip now w).fst = Response.forbidden ∧
    ip ∈ (middleware exc ip now w).snd.blockedIPs ∧
    lookupKey (middleware exc ip now w).snd.requestCounts ip
      = some ⟨d.count + 1, d.expires⟩ ∧
    lookupKey (middleware exc ip now w).snd.violationCounts ip
      = some ((lookupKey w.violationCounts ip).getD 0 + 1) := by
  obtain ⟨w1, heq, h1, h2, h3, h4, h5⟩ := middleware_not_blocked exc ip now w hb hs
  have hrc1 : lookupKey w1.requestCounts ip = some d := by rw [h1]; exact hrc
  have hvc1 : lookupKey (purgeVc now w1.requestCounts w1.violationCounts) ip
      = lookupKey w.violationCounts ip := by
    rw [purgeVc_lookup_live hrc1 hnow, h2]
  have hv1 : VIOLATION_THRESHOLD ≤
      (lookupKey (purgeVc now w1.requestCounts w1.violationCounts) ip).getD 0 + 1 := by
    rw [hvc1]; exact hv
  rw [heq, if_neg (by simp [hbody]),
    rateStep_over_block (purgeRc_lookup_live hrc1 hnow) hc hv1]
  refine ⟨rfl, ?_, ?_, ?_⟩
  · rw [show ((Response.forbidden,
        promoteStore exc
          { w1 with
            requestCounts :=
              setKey (purgeRc now w1.requestCounts) ip ⟨d.count + 1, d.expires⟩,
            violationCounts :=
              setKey (purgeVc now w1.requestCounts w1.violationCounts) ip
                ((lookupKey (purgeVc now w1.requestCounts w1.violationCounts) ip).getD 0 + 1),
            blockedIPs := addIP w1.blockedIPs ip } ip).snd
      = promoteStore exc
          { w1 with
            requestCounts :=
              setKey (purgeRc now w1.requestCounts) ip ⟨d.count + 1, d.expires⟩,
            violationCounts :=
              setKey (purgeVc now w1.requestCounts w1.violationCounts) ip
                ((lookupKey (purgeVc now w1.requestCounts w1.violationCounts) ip).getD 0 + 1),
            blockedIPs := addIP w1.blockedIPs ip } ip) from rfl,
      (promoteStore_frame exc _ ip).1]
    exact addIP_mem_self _ _
  · rw [show ((Response.forbidden,
        promoteStore exc
          { w1 with
            requestCounts :=
              setKey (purgeRc now w1.requestCounts) ip ⟨d.count + 1, d.expires⟩,
            violationCounts :=
              setKey (purgeVc now w1.requestCounts w1.violationCounts) ip
                ((lookupKey (purgeVc now w1.requestCounts w1.violationCounts) ip).getD 0 + 1),
            blockedIPs := addIP w1.blockedIPs ip } ip).snd
      = promoteStore exc
          { w1 with
            requestCounts :=
              setKey (purgeRc now w1.requestCounts) ip ⟨d.count + 1, d.expires⟩,
            violationCounts :=
              setKey (purgeVc now w1.requestCounts w1.violationCounts) ip
                ((lookupKey (purgeVc now w1.requestCounts w1.violationCounts) ip).getD 0 + 1),
            blockedIPs := addIP w1.blockedIPs ip } ip) from rfl,
      (promoteStore_frame exc _ ip).2.1]
    exact lookupKey_setKey_self _ _ _
  · rw [show ((Response.forbidden,
        promoteStore exc
          { w1 with
            requestCounts :=
              setKey (purgeRc now w1.requestCounts) ip ⟨d.count + 1, d.expires⟩,
            violationCounts :=
              setKey (purgeVc now w1.requestCounts w1.violationCounts) ip
                ((lookupKey (purgeVc now w1.requestCounts w1.violationCounts) ip).getD 0 + 1),
            blockedIPs := addIP w1.blockedIPs ip } ip).snd
      = promoteStore exc
          { w1 with
            requestCounts :=
              setKey (purgeRc now w1.requestCounts) ip ⟨d.count + 1, d.expires⟩,
            violationCounts :=
              setKey (purgeVc now w1.requestCounts w1.violationCounts) ip
                ((lookupKey (purgeVc now w1.requestCounts w1.violationCounts) ip).getD 0 + 1),
            blockedIPs := addIP w1.blockedIPs ip } ip) from rfl,
      (promoteStore_frame exc _ ip).2.2.1]
    show lookupKey
      (setKey (purgeVc now w1.requestCounts w1.violationCounts) ip
        ((lookupKey (purgeVc now w1.requestCounts w1.violationCounts) ip).getD 0 + 1)) ip
      = some ((lookupKey w.violationCounts ip).getD 0 + 1)
    rw [lookupKey_setKey_self, hvc1]

theorem mw_expired_fresh {exc : ExcSchedule} {ip : String} {now : Nat} {w : World}
    {d : WindowRecord}
    (hb : ip ∉ w.blockedIPs) (hs : ip ∉ w.store.getD [])
    (hbody : exc.bodyExc = false) (hwf : wfKeys w.requestCounts)
    (hrc : lookupKey w.requestCounts ip = some d) (hexp : d.expires < now) :
    (middleware exc ip now w).fst = Response.next ∧
    lookupKey (middleware exc ip now w).snd.requestCounts ip
      = some ⟨1, now + RATE_WINDOW_MS⟩ ∧
    lookupKey (middleware exc ip now w).snd.violationCounts ip = none ∧
    ip ∉ (middleware exc ip now w).snd.blockedIPs ∧
    (middleware exc ip now w).snd.store = w.store ∧
    (middleware exc ip now w).snd.edgeConfig = w.edgeConfig := by
  obtain ⟨w1, heq, h1, h2, h3, h4, h5⟩ := middleware_not_blocked exc ip now w hb hs
  have hrc1 : lookupKey w1.requestCounts ip = some d := by rw [h1]; exact hrc
  have hwf1 : wfKeys w1.requestCounts := by rw [h1]; exact hwf
  rw [heq, if_neg (by simp [hbody]),
    rateStep_fresh (purgeRc_lookup_expired hwf1 hrc1 hexp)]
  refine ⟨rfl, lookupKey_setKey_self _ _ _, ?_, h5, h3, h4⟩
  show lookupKey (purgeVc now w1.requestCounts w1.violationCounts) ip = none
  exact purgeVc_lookup_expired hrc1 hexp

theorem noExc_body : noExc.bodyExc = false := rfl

theorem seq_pass {ip : String} {ts : List Nat} {w : World} {k e : Nat}
    (hb : ip ∉ w.blockedIPs) (hs : ip ∉ w.store.getD [])
    (hrc : lookupKey w.requestCounts ip = some ⟨k, e⟩)
    (hts : ∀ t ∈ ts, t ≤ e) (hk : k + ts.length ≤ RATE_LIMIT) :
    (processSeq noExc ip ts w).fst = List.replicate ts.length Response.next ∧
    lookupKey (processSeq noExc ip ts w).snd.requestCounts ip
      = some ⟨k + ts.length, e⟩ ∧
    lookupKey (processSeq noExc ip ts w).snd.violationCounts ip
      = lookupKey w.violationCounts ip ∧
    ip ∉ (processSeq noExc ip ts w).snd.blockedIPs ∧
    (processSeq noExc ip ts w).snd.store = w.store ∧
    (processSeq noExc ip ts w).snd.edgeConfig = w.edgeConfig := by
  induction ts generalizing w k with
  | nil => exact ⟨rfl, hrc, rfl, hb, rfl, rfl⟩
  | cons t ts ih =>
    have hd : t ≤ e := hts t (List.mem_cons_self _ _)
    have hk1 : k + 1 ≤ RATE_LIMIT := by
      have := hk
      simp only [List.length_cons] at this
      omega
    obtain ⟨hf, hrc', hvc', hb', hst', hec'⟩ :=
      mw_incr (d := ⟨k, e⟩) hb hs noExc_body hrc hd hk1
    have hs' : ip ∉ (middleware noExc ip t w).snd.store.getD [] := by
      rw [hst']; exact hs
    have hkk : (k + 1) + ts.length ≤ RATE_LIMIT := by
      have := hk
      simp only [List.length_cons] at this
      omega
    obtain ⟨ihf, ihrc, ihvc, ihb, ihst, ihec⟩ :=
      ih hb' hs' hrc' (fun x hx => hts x (List.mem_cons_of_mem _ hx)) hkk
    simp only [processSeq, List.length_cons]
    refine ⟨?_, ?_, ?_, ihb, ?_, ?_⟩
    · rw [List.replicate_succ, hf, ihf]
    · rw [ihrc]
      have : k + 1 + ts.length = k + (ts.length + 1) := by omega
      rw [this]
    · rw [ihvc, hvc']
    · rw [ihst, hst']
    · rw [ihec, hec']

theorem middleware_cases (exc : ExcSchedule) (ip : String) (now : Nat) (w : World) :
    middleware exc ip now w = (Response.forbidden, w) ∨
    (∃ w1, (w1 = w ∨
        (w1 = { w with refreshGets := w.refreshGets + 1 } ∧
          BLOCKLIST_REFRESH_MS < now - w.lastBlocklistRefresh ∧
          exc.refreshGetErr = true) ∨
        (w1 = refreshedWorld now w ∧
          BLOCKLIST_REFRESH_MS < now - w.lastBlocklistRefresh ∧
          exc.refreshGetErr = false)) ∧
      middleware exc ip now w =
        (if exc.bodyExc = true then (Response.next, w1)
         else rateStep exc ip now w1)) ∨
    (middleware exc ip now w = (Response.forbidden, refreshedWorld now w) ∧
      BLOCKLIST_REFRESH_MS < now - w.lastBlocklistRefresh ∧
      exc.refreshGetErr = false) := by
  by_cases hbk : ip ∈ w.blockedIPs
  · exact Or.inl (mw_blocked hbk)
  · unfold middleware
    rw [if_neg hbk]
    by_cases htr :
        w.edgeConfig = true ∧ BLOCKLIST_REFRESH_MS < now - w.lastBlocklistRefresh
    · by_cases hge : exc.refreshGetErr = true
      · rw [refreshStep_get_err htr hge]
        exact Or.inr (Or.inl ⟨_, Or.inr (Or.inl ⟨rfl, htr.2, hge⟩), rfl⟩)
      · by_cases hm : ip ∈ (refreshedWorld now w).blockedIPs
        · rw [refreshStep_ok_hit htr (by simpa using hge) hm]
          exact Or.inr (Or.inr ⟨rfl, htr.2, by simpa using hge⟩)
        · rw [refreshStep_ok_miss htr (by simpa using hge) hm]
          exact Or.inr (Or.inl ⟨_,
            Or.inr (Or.inr ⟨rfl, htr.2, by simpa using hge⟩), rfl⟩)
    · rw [refreshStep_no_trigger htr]
      exact Or.inr (Or.inl ⟨_, Or.inl rfl, rfl⟩)

theorem mw_refresh_dichotomy (exc : ExcSchedule) (ip : String) (now : Nat)
    (w : World) :
    ((middleware exc ip now w).snd.refreshOks = w.refreshOks ∧
     (middleware exc ip now w).snd.lastBlocklistRefresh = w.lastBlocklistRefresh) ∨
    ((middleware exc ip now w).snd.refreshOks = w.refreshOks + 1 ∧
     (middleware exc ip now w).snd.lastBlocklistRefresh = now ∧
     BLOCKLIST_REFRESH_MS < now - w.lastBlocklistRefresh) := by
  rcases middleware_cases exc ip now w with heq | ⟨w1, hw1, heq⟩ | ⟨heq, htr, -⟩
  · rw [heq]; exact Or.inl ⟨rfl, rfl⟩
  · have hflds :
        (middleware exc ip now w).snd.refreshOks = w1.refreshOks ∧
        (middleware exc ip now w).snd.lastBlocklistRefresh
          = w1.lastBlocklistRefresh := by
      by_cases hbe : exc.bodyExc = true
      · rw [if_pos hbe] at heq
        rw [heq]
        exact ⟨rfl, rfl⟩
      · rw [if_neg hbe] at heq
        rw [heq]
        obtain ⟨q1, -, q3, -⟩ := rateStep_frame exc ip now w1
        exact ⟨q1, q3⟩
    rcases hw1 with rfl | ⟨rfl, htr, -⟩ | ⟨rfl, htr, -⟩
    · exact Or.inl hflds
    · exact Or.inl hflds
    · exact Or.inr ⟨hflds.1, hflds.2, htr⟩
  · rw [heq]
    exact Or.inr ⟨rfl, rfl, htr⟩

theorem mw_no_refresh_get {exc : ExcSchedule} {ip : String} {now : Nat}
    {w : World} (h : now - w.lastBlocklistRefresh ≤ BLOCKLIST_REFRESH_MS) :
    (middleware exc ip now w).snd.refreshGets = w.refreshGets := by
  have hnt := Nat.not_lt.mpr h
  rcases middleware_cases exc ip now w with heq | ⟨w1, hw1, heq⟩ | ⟨heq, htr, -⟩
  · rw [heq]
  · rcases hw1 with rfl | ⟨rfl, htr, -⟩ | ⟨rfl, htr, -⟩
    · by_cases hbe : exc.bodyExc = true
      · rw [if_pos hbe] at heq; rw [heq]
      · rw [if_neg hbe] at heq; rw [heq]
        exact (rateStep_frame exc ip now _).2.1
    · exact absurd htr hnt
    · exact absurd htr hnt
  · exact absurd htr hnt

theorem mw_failed_get_keeps_timestamp {exc : ExcSchedule} {ip : String}
    {now : Nat} {w : World} (hge : exc.refreshGetErr = true) :
    (middleware exc ip now w).snd.lastBlocklistRefresh
      = w.lastBlocklistRefresh := by
  rcases middleware_cases exc ip now w with heq | ⟨w1, hw1, heq⟩ | ⟨-, -, hf⟩
  · rw [heq]
  · have hts : w1.lastBlocklistRefresh = w.lastBlocklistRefresh := by
      rcases hw1 with rfl | ⟨rfl, -, -⟩ | ⟨-, -, hf⟩
      · rfl
      · rfl
      · rw [hge] at hf; exact absurd hf (by simp)
    by_cases hbe : exc.bodyExc = true
    · rw [if_pos hbe] at heq; rw [heq]; exact hts
    · rw [if_neg hbe] at heq; rw [heq]
      rw [(rateStep_frame exc ip now w1).2.2.1]
      exact hts
  · rw [hge] at hf; exact absurd hf (by simp)

theorem mw_blocked_mono_store {exc : ExcSchedule} {q ip : String} {now : Nat}
    {w : World} (h1 : ip ∈ w.blockedIPs) (h2 : ip ∈ w.store.getD []) :
    ip ∈ (middleware exc q now w).snd.blockedIPs := by
  rcases middleware_cases exc q now w with heq | ⟨w1, hw1, heq⟩ | ⟨heq, -, -⟩
  · rw [heq]; exact h1
  · have hmem : ip ∈ w1.blockedIPs := by
      rcases hw1 with rfl | ⟨rfl, -, -⟩ | ⟨rfl, -, -⟩
      · exact h1
      · exact h1
      · simpa [refreshedWorld, List.mem_dedup] using h2
    by_cases hbe : exc.bodyExc = true
    · rw [if_pos hbe] at heq; rw [heq]; exact hmem
    · rw [if_neg hbe] at heq; rw [heq]
      exact rateStep_blocked_mono hmem
  · rw [heq]
    simpa [refreshedWorld, List.mem_dedup] using h2

theorem mw_blocked_mono_norefresh {exc : ExcSchedule} {q ip : String} {now : Nat}
    {w : World} (h1 : ip ∈ w.blockedIPs)
    (h2 : now - w.lastBlocklistRefresh ≤ BLOCKLIST_REFRESH_MS) :
    ip ∈ (middleware exc q now w).snd.blockedIPs := by
  have hnt := Nat.not_lt.mpr h2
  rcases middleware_cases exc q now w with heq | ⟨w1, hw1, heq⟩ | ⟨-, htr, -⟩
  · rw [heq]; exact h1
  · have hmem : ip ∈ w1.blockedIPs := by
      rcases hw1 with rfl | ⟨rfl, htr, -⟩ | ⟨rfl, htr, -⟩
      · exact h1
      · exact h1
      · exact absurd htr hnt
    by_cases hbe : exc.bodyExc = true
    · rw [if_pos hbe] at heq; rw [heq]; exact hmem
    · rw [if_neg hbe] at heq; rw [heq]
      exact rateStep_blocked_mono hmem
  · exact absurd htr hnt

theorem runTrace_no_refresh {trace : List (ExcSchedule × String × Nat)} {a : Nat}
    {w : World} (hL : a ≤ w.lastBlocklistRefresh)
    (ht : ∀ r ∈ trace, r.snd.snd ≤ a + BLOCKLIST_REFRESH_MS) :
    (runTrace trace w).snd.refreshOks = w.refreshOks ∧
    a ≤ (runTrace trace w).snd.lastBlocklistRefresh := by
  induction trace generalizing w with
  | nil => exact ⟨rfl, hL⟩
  | cons r rest ih =>
    rcases mw_refresh_dichotomy r.fst r.snd.fst r.snd.snd w with
      ⟨ho, hl⟩ | ⟨-, -, htr⟩
    · have hL' : a ≤ (middleware r.fst r.snd.fst r.snd.snd w).snd.lastBlocklistRefresh := by
        rw [hl]; exact hL
      have hrest := ih hL' (fun x hx => ht x (List.mem_cons_of_mem _ hx))
      simp only [runTrace]
      exact ⟨by rw [hrest.1, ho], hrest.2⟩
    · have h1 := ht r (List.mem_cons_self _ _)
      omega

theorem runTrace_refresh_bound {trace : List (ExcSchedule × String × Nat)}
    {a : Nat} {w : World}
    (ht : ∀ r ∈ trace, a ≤ r.snd.snd ∧ r.snd.snd ≤ a + BLOCKLIST_REFRESH_MS) :
    (runTrace trace w).snd.refreshOks ≤ w.refreshOks + 1 := by
  induction trace generalizing w with
  | nil => exact Nat.le_succ _
  | cons r rest ih =>
    rcases mw_refresh_dichotomy r.fst r.snd.fst r.snd.snd w with
      ⟨ho, -⟩ | ⟨ho, hl, -⟩
    · have hrest := @ih (middleware r.fst r.snd.fst r.snd.snd w).snd
        (fun x hx => ht x (List.mem_cons_of_mem _ hx))
      simp only [runTrace]
      calc (runTrace rest (middleware r.fst r.snd.fst r.snd.snd w).snd).snd.refreshOks
          ≤ (middleware r.fst r.snd.fst r.snd.snd w).snd.refreshOks + 1 := hrest
        _ = w.refreshOks + 1 := by rw [ho]
    · have hLa : a ≤ (middleware r.fst r.snd.fst r.snd.snd w).snd.lastBlocklistRefresh := by
        rw [hl]; exact (ht r (List.mem_cons_self _ _)).1
      have hrest := runTrace_no_refresh hLa
        (fun x hx => (ht x (List.mem_cons_of_mem _ hx)).2)
      simp only [runTrace]
      rw [hrest.1, ho]

theorem mw_status_cases (exc : ExcSchedule) (ip : String) (now : Nat) (w : World) :
    (middleware exc ip now w).fst.status = 200 ∨
    (middleware exc ip now w).fst.status = 403 ∨
    (middleware exc ip now w).fst.status = 429 := by
  cases h : (middleware exc ip now w).fst <;> simp [Response.status]

theorem mw_bodyExc_next {exc : ExcSchedule} {ip : String} {now : Nat} {w : World}
    (hbe : exc.bodyExc = true) (hb : ip ∉ w.blockedIPs)
    (hs : ip ∉ w.store.getD []) :
    (middleware exc ip now w).fst = Response.next := by
  obtain ⟨w1, heq, -, -, -, -, -⟩ := middleware_not_blocked exc ip now w hb hs
  rw [heq, if_pos hbe]

theorem mw_count_increment {exc : ExcSchedule} {ip : String} {now : Nat}
    {w : World} {d : WindowRecord}
    (hb : ip ∉ w.blockedIPs) (hs : ip ∉ w.store.getD [])
    (hbody : exc.bodyExc = false)
    (hrc : lookupKey w.requestCounts ip = some d) (hnow : now ≤ d.expires) :
    lookupKey (middleware exc ip now w).snd.requestCounts ip
      = some ⟨d.count + 1, d.expires⟩ := by
  by_cases hcl : d.count + 1 ≤ RATE_LIMIT
  · exact (mw_incr hb hs hbody hrc hnow hcl).2.1
  · have hcl' : RATE_LIMIT < d.count + 1 := Nat.not_le.mp hcl
    by_cases hv : (lookupKey w.violationCounts ip).getD 0 + 1 < VIOLATION_THRESHOLD
    · exact (mw_over_429 hb hs hbody hrc hnow hcl' hv).2.1
    · exact (mw_over_block hb hs hbody hrc hnow hcl' (Nat.not_lt.mp hv)).2.2.1

theorem mw_overflow_violation {exc : ExcSchedule} {ip : String} {now : Nat}
    {w : World} {d : WindowRecord}
    (hb : ip ∉ w.blockedIPs) (hs : ip ∉ w.store.getD [])
    (hbody : exc.bodyExc = false)
    (hrc : lookupKey w.requestCounts ip = some d) (hnow : now ≤ d.expires)
    (hc : RATE_LIMIT < d.count + 1) :
    lookupKey (middleware exc ip now w).snd.violationCounts ip
      = some ((lookupKey w.violationCounts ip).getD 0 + 1) := by
  by_cases hv : (lookupKey w.violationCounts ip).getD 0 + 1 < VIOLATION_THRESHOLD
  · exact (mw_over_429 hb hs hbody hrc hnow hc hv).2.2.1
  · exact (mw_over_block hb hs hbody hrc hnow hc (Nat.not_lt.mp hv)).2.2.2

/-! ### Claims -/

/-- C8: for every request whose identity is already in the local block cache,
the gate responds 403 and leaves all admission state unchanged — the whole
`World` (in particular the identity's window record and violation record) is
returned exactly as it was: nothing is created, incremented, or purged. -/
theorem c8_blocked_frame (exc : ExcSchedule) (ip : String) (now : Nat)
    (w : World) (hb : ip ∈ w.blockedIPs) :
    middleware exc ip now w = (Response.forbidden, w) :=
  mw_blocked hb

/-- Witness for C8 at a concrete blocked world. -/
theorem c8_witness :
    ("a" ∈ ({ initialWorld false none with blockedIPs := ["a"] } : World).blockedIPs) ∧
    middleware noExc "a" 5 { initialWorld false none with blockedIPs := ["a"] }
      = (Response.forbidden, { initialWorld false none with blockedIPs := ["a"] }) :=
  ⟨by decide, c8_blocked_frame noExc "a" 5 _ (by decide)⟩

/-- C10 counterexample: on a store list that already contains the identity
twice, the promote read-modify-write (applied twice) leaves the identity
twice in the list, not exactly once, falsifying the claim for arbitrary
store list states. -/
theorem c10_counterexample :
    promoteStoreUpdate (promoteStoreUpdate ["a", "a"] "a") "a" = ["a", "a"] ∧
    ((promoteStoreUpdate (promoteStoreUpdate ["a", "a"] "a") "a").count "a" = 2) := by
  decide

/-- C10 (amended): the promote read-modify-write never appends an identity
already present: applying it twice equals applying it once, the result
contains the identity, and whenever the fetched list held the identity at
most once the result holds it exactly once. -/
theorem c10_amended_promote_idempotent (l : List String) (x : String)
    (h : l.count x ≤ 1) :
    promoteStoreUpdate (promoteStoreUpdate l x) x = promoteStoreUpdate l x ∧
    x ∈ promoteStoreUpdate l x ∧
    (promoteStoreUpdate l x).count x = 1 := by
  unfold promoteStoreUpdate
  by_cases hx : x ∈ l
  · have h1 : 0 < l.count x := List.count_pos_iff.mpr hx
    simp [hx]
    omega
  · have hz : l.count x = 0 := List.count_eq_zero.mpr hx
    simp [hx, List.count_append, hz]

/-- Witness for C10's amended theorem on a concrete one-element list. -/
theorem c10_witness :
    ((["b"] : List String).count "a" ≤ 1) ∧
    (promoteStoreUpdate (promoteStoreUpdate ["b"] "a") "a"
        = promoteStoreUpdate ["b"] "a" ∧
      "a" ∈ promoteStoreUpdate ["b"] "a" ∧
      (promoteStoreUpdate ["b"] "a").count "a" = 1) :=
  ⟨by decide, c10_amended_promote_idempotent ["b"] "a" (by decide)⟩

/-- C1 counterexample: two same-window overflowing requests each increment the
violation counter.  From a fresh instance, 102 requests from one identity at
one instant leave the 101st and 102nd answered 429 with violation counts 1
and 2, and the stored violation count at 2 — one violation per overflowing
request, not one per window. -/
theorem c1_counterexample :
    ((runTrace (List.replicate 102 (noExc, "a", 0)) (initialWorld false none)).fst[100]?
      = some (Response.tooMany 900 1 3)) ∧
    ((runTrace (List.replicate 102 (noExc, "a", 0)) (initialWorld false none)).fst[101]?
      = some (Response.tooMany 900 2 3)) ∧
    lookupKey (runTrace (List.replicate 102 (noExc, "a", 0))
      (initialWorld false none)).snd.violationCounts "a" = some 2 := by
  decide

/-- C1 (amended): every request that finds the window count above `RATE_LIMIT`
increments the identity's violation counter by one; in particular two
overflowing requests inside the same unexpired window record two violations,
not one. -/
theorem c1_amended_overflow_increments (ip : String) (now1 now2 : Nat)
    (w : World) (d : WindowRecord)
    (hb : ip ∉ w.blockedIPs) (hs : ip ∉ w.store.getD [])
    (hrc : lookupKey w.requestCounts ip = some d)
    (h1 : now1 ≤ d.expires) (h2 : now2 ≤ d.expires)
    (hc : RATE_LIMIT < d.count + 1)
    (hv : (lookupKey w.violationCounts ip).getD 0 + 1 < VIOLATION_THRESHOLD) :
    lookupKey (middleware noExc ip now1 w).snd.violationCounts ip
      = some ((lookupKey w.violationCounts ip).getD 0 + 1) ∧
    lookupKey (middleware noExc ip now2
        (middleware noExc ip now1 w).snd).snd.violationCounts ip
      = some ((lookupKey w.violationCounts ip).getD 0 + 2) := by
  obtain ⟨-, hrc', hvc', hb', hst', -⟩ :=
    mw_over_429 hb hs noExc_body hrc h1 hc hv
  have hs' : ip ∉ (middleware noExc ip now1 w).snd.store.getD [] := by
    rw [hst']; exact hs
  have hc2 : RATE_LIMIT < (⟨d.count + 1, d.expires⟩ : WindowRecord).count + 1 := by
    show RATE_LIMIT < d.count + 1 + 1
    omega
  have hvsnd := mw_overflow_violation hb' hs' noExc_body hrc' h2 hc2
  refine ⟨hvc', ?_⟩
  rw [hvsnd, hvc']
  rfl

/-- Witness for C1's amended theorem at a concrete overflowing world. -/
theorem c1_witness :
    ("a" ∉ ({ initialWorld false none with
        requestCounts := [("a", ⟨100, 50⟩)] } : World).blockedIPs) ∧
    lookupKey ({ initialWorld false none with
        requestCounts := [("a", ⟨100, 50⟩)] } : World).requestCounts "a"
      = some ⟨100, 50⟩ ∧
    (lookupKey (middleware noExc "a" 10
        { initialWorld false none with
          requestCounts := [("a", ⟨100, 50⟩)] }).snd.violationCounts "a"
      = some ((lookupKey ({ initialWorld false none with
          requestCounts := [("a", ⟨100, 50⟩)] } : World).violationCounts "a").getD 0 + 1) ∧
    lookupKey (middleware noExc "a" 20 (middleware noExc "a" 10
        { initialWorld false none with
          requestCounts := [("a", ⟨100, 50⟩)] }).snd).snd.violationCounts "a"
      = some ((lookupKey ({ initialWorld false none with
          requestCounts := [("a", ⟨100, 50⟩)] } : World).violationCounts "a").getD 0 + 2)) :=
  ⟨by decide, by decide,
    c1_amended_overflow_increments "a" 10 20 _ ⟨100, 50⟩ (by decide) (by decide)
      (by decide) (by decide) (by decide) (by decide) (by decide)⟩

/-- C3 counterexample: an exception raised inside the admission pipeline (the
store `get` thrown during the blocklist refresh, caught by the inner handler
of line 59) does not make the request be forwarded: the 101st same-window
request is still answered 429. -/
theorem c3_counterexample :
    (middleware excRefreshErr "a" 400000
        { initialWorld true (some []) with
          requestCounts := [("a", ⟨100, 900000⟩)] }).fst
      = Response.tooMany 500 1 3 ∧
    (middleware excRefreshErr "a" 400000
        { initialWorld true (some []) with
          requestCounts := [("a", ⟨100, 900000⟩)] }).fst ≠ Response.next := by
  decide

/-- C3 (amended): store `get`/`set` exceptions during refresh or promotion are
caught by inner handlers and the pipeline continues (such a request may still
be answered 429 or 403), while an unexpected exception in the rate-limiting
body reaches the top-level catch and the request is forwarded as if it had
passed; in every case the subsystem's response is a pass-through, a 403, or a
429 — never a 500. -/
theorem c3_amended_fail_open (exc : ExcSchedule) (ip : String) (now : Nat)
    (w : World) (e2 : ExcSchedule) (q : String) (t2 : Nat) (w2 : World)
    (hbe : e2.bodyExc = true) (hb2 : q ∉ w2.blockedIPs)
    (hs2 : q ∉ w2.store.getD []) :
    ((middleware exc ip now w).fst.status = 200 ∨
     (middleware exc ip now w).fst.status = 403 ∨
     (middleware exc ip now w).fst.status = 429) ∧
    (middleware exc ip now w).fst.status ≠ 500 ∧
    (middleware e2 q t2 w2).fst = Response.next := by
  refine ⟨mw_status_cases exc ip now w, ?_, mw_bodyExc_next hbe hb2 hs2⟩
  rcases mw_status_cases exc ip now w with h | h | h <;> simp [h]

/-- Witness for C3's amended theorem. -/
theorem c3_witness :
    (excBodyErr.bodyExc = true) ∧
    ("b" ∉ (initialWorld false none).blockedIPs) ∧
    ("b" ∉ (initialWorld false none).store.getD []) ∧
    (((middleware noExc "a" 0 (initialWorld false none)).fst.status = 200 ∨
      (middleware noExc "a" 0 (initialWorld false none)).fst.status = 403 ∨
      (middleware noExc "a" 0 (initialWorld false none)).fst.status = 429) ∧
     (middleware noExc "a" 0 (initialWorld false none)).fst.status ≠ 500 ∧
     (middleware excBodyErr "b" 0 (initialWorld false none)).fst = Response.next) :=
  ⟨by decide, by decide, by decide,
    c3_amended_fail_open noExc "a" 0 (initialWorld false none) excBodyErr "b" 0
      (initialWorld false none) (by decide) (by decide) (by decide)⟩

/-- C2 counterexample: an identity promoted into the local cache whose store
append failed does not stay blocked.  After 103 same-window requests from
"a" (the 103rd promotes "a" locally and is answered 403, the store `set`
having thrown), a later request from "b" triggers a blocklist refresh that
replaces the cache with the store's list (which lacks "a"), and the next
request from "a" is answered with a pass-through, with "a" absent from the
local cache. -/
theorem c2_counterexample :
    ((runTrace (List.replicate 103 (excPromoteSetErr, "a", 0))
        (initialWorld true (some []))).snd.blockedIPs = ["a"]) ∧
    ((runTrace (List.replicate 103 (excPromoteSetErr, "a", 0))
        (initialWorld true (some []))).fst.getLast? = some Response.forbidden) ∧
    ((runTrace (List.replicate 103 (excPromoteSetErr, "a", 0) ++
        [(noExc, "b", 1000000), (noExc, "a", 1000001)])
        (initialWorld true (some []))).fst.getLast? = some Response.next) ∧
    ("a" ∉ (runTrace (List.replicate 103 (excPromoteSetErr, "a", 0) ++
        [(noExc, "b", 1000000), (noExc, "a", 1000001)])
        (initialWorld true (some []))).snd.blockedIPs) := by
  decide

/-- C2 (amended): a promoted identity is denied 403 with the state untouched
on every request it makes while it is in the local cache; it stays in the
cache across any request that arrives within `BLOCKLIST_REFRESH_MS` of the
last refresh (no refresh replaces the cache), and it survives a refresh
whenever the external store's list contains it (i.e. when the append
succeeded) — only a refresh against a store list lacking the identity can
drop the local block. -/
theorem c2_amended_blocked_until_refresh
    (e1 : ExcSchedule) (a1 : String) (t1 : Nat) (w1 : World)
    (e2 : ExcSchedule) (b1 b2 : String) (t2 : Nat) (w2 : World)
    (e3 : ExcSchedule) (p1 p2 : String) (t3 : Nat) (w3 : World)
    (h1 : a1 ∈ w1.blockedIPs)
    (h2a : b1 ∈ w2.blockedIPs) (h2b : b1 ∈ w2.store.getD [])
    (h3a : p1 ∈ w3.blockedIPs)
    (h3b : t3 - w3.lastBlocklistRefresh ≤ BLOCKLIST_REFRESH_MS) :
    middleware e1 a1 t1 w1 = (Response.forbidden, w1) ∧
    b1 ∈ (middleware e2 b2 t2 w2).snd.blockedIPs ∧
    p1 ∈ (middleware e3 p2 t3 w3).snd.blockedIPs :=
  ⟨mw_blocked h1, mw_blocked_mono_store h2a h2b, mw_blocked_mono_norefresh h3a h3b⟩

/-- Witness for C2's amended theorem at concrete worlds. -/
theorem c2_witness :
    ("p" ∈ ({ initialWorld false none with blockedIPs := ["p"] } : World).blockedIPs) ∧
    ("q" ∈ ({ initialWorld true (some ["q"]) with blockedIPs := ["q"] } : World).blockedIPs) ∧
    ("q" ∈ (({ initialWorld true (some ["q"]) with blockedIPs := ["q"] } : World).store.getD [])) ∧
    ("s" ∈ ({ initialWorld true (some []) with
        blockedIPs := ["s"], lastBlocklistRefresh := 100 } : World).blockedIPs) ∧
    (200 - ({ initialWorld true (some []) with
        blockedIPs := ["s"], lastBlocklistRefresh := 100 } : World).lastBlocklistRefresh
      ≤ BLOCKLIST_REFRESH_MS) ∧
    (middleware noExc "p" 7 { initialWorld false none with blockedIPs := ["p"] }
        = (Response.forbidden, { initialWorld false none with blockedIPs := ["p"] }) ∧
      "q" ∈ (middleware noExc "r" 999999
        { initialWorld true (some ["q"]) with blockedIPs := ["q"] }).snd.blockedIPs ∧
      "s" ∈ (middleware noExc "t" 200
        { initialWorld true (some []) with
          blockedIPs := ["s"], lastBlocklistRefresh := 100 }).snd.blockedIPs) :=
  ⟨by decide, by decide, by decide, by decide, by decide,
    c2_amended_blocked_until_refresh noExc "p" 7 _ noExc "q" "r" 999999 _
      noExc "s" "t" 200 _ (by decide) (by decide) (by decide) (by decide) (by decide)⟩

/-- C4 counterexample: after the threshold-reaching request answers 403 and
promotes "x" into the local cache (with the store `get` of the promotion
having thrown, so no append), a blocklist refresh triggered by "y" replaces
the cache with the store's (empty) list, and a subsequent request from "x"
is not answered 403 but passed through — "every subsequent request" fails. -/
theorem c4_counterexample :
    ((runTrace (List.replicate 103 (excPromoteGetErr, "x", 0))
        (initialWorld true none)).fst.getLast? = some Response.forbidden) ∧
    ("x" ∈ (runTrace (List.replicate 103 (excPromoteGetErr, "x", 0))
        (initialWorld true none)).snd.blockedIPs) ∧
    ((runTrace (List.replicate 103 (excPromoteGetErr, "x", 0) ++
        [(noExc, "y", 2000000), (noExc, "x", 2000001)])
        (initialWorld true none)).fst.getLast? = some Response.next) := by
  decide

/-- C4 (amended): the request on which the recorded violation count reaches
`VIOLATION_THRESHOLD` is answered 403 and the identity enters the local
block cache; every subsequent request made while the identity remains in the
cache (it remains there at least until a blocklist refresh replaces the
cache with a store list lacking it) is answered 403 with the whole state —
in particular the window counter — untouched. -/
theorem c4_amended_threshold_blocks
    (exc : ExcSchedule) (ip : String) (now : Nat) (w : World) (d : WindowRecord)
    (e2 : ExcSchedule) (q : String) (t2 : Nat) (w2 : World)
    (hb : ip ∉ w.blockedIPs) (hs : ip ∉ w.store.getD [])
    (hbody : exc.bodyExc = false)
    (hrc : lookupKey w.requestCounts ip = some d) (hnow : now ≤ d.expires)
    (hc : RATE_LIMIT < d.count + 1)
    (hv : VIOLATION_THRESHOLD ≤ (lookupKey w.violationCounts ip).getD 0 + 1)
    (hq : q ∈ w2.blockedIPs) :
    (middleware exc ip now w).fst = Response.forbidden ∧
    ip ∈ (middleware exc ip now w).snd.blockedIPs ∧
    middleware e2 q t2 w2 = (Response.forbidden, w2) := by
  obtain ⟨hf, hm, -, -⟩ := mw_over_block hb hs hbody hrc hnow hc hv
  exact ⟨hf, hm, mw_blocked hq⟩

/-- Witness for C4's amended theorem at a concrete threshold-reaching world. -/
theorem c4_witness :
    ("a" ∉ ({ initialWorld false none with
        requestCounts := [("a", ⟨100, 10⟩)],
        violationCounts := [("a", 2)] } : World).blockedIPs) ∧
    (lookupKey ({ initialWorld false none with
        requestCounts := [("a", ⟨100, 10⟩)],
        violationCounts := [("a", 2)] } : World).requestCounts "a"
      = some ⟨100, 10⟩) ∧
    (VIOLATION_THRESHOLD ≤ (lookupKey ({ initialWorld false none with
        requestCounts := [("a", ⟨100, 10⟩)],
        violationCounts := [("a", 2)] } : World).violationCounts "a").getD 0 + 1) ∧
    ((middleware noExc "a" 10 { initialWorld false none with
        requestCounts := [("a", ⟨100, 10⟩)],
        violationCounts := [("a", 2)] }).fst = Response.forbidden ∧
      "a" ∈ (middleware noExc "a" 10 { initialWorld false none with
        requestCounts := [("a", ⟨100, 10⟩)],
        violationCounts := [("a", 2)] }).snd.blockedIPs ∧
      middleware noExc "z" 0 { initialWorld false none with blockedIPs := ["z"] }
        = (Response.forbidden, { initialWorld false none with blockedIPs := ["z"] })) :=
  ⟨by decide, by decide, by decide,
    c4_amended_threshold_blocks noExc "a" 10 _ ⟨100, 10⟩ noExc "z" 0 _
      (by decide) (by decide) (by decide) (by decide) (by decide) (by decide)
      (by decide) (by decide)⟩

/-- C9 counterexample: two gate invocations 1 ms apart (span far below
`BLOCKLIST_REFRESH_MS`) issue two blocklist `get`s to the store: the first
`get` throws, the last-refreshed timestamp is not updated, and the second
invocation fetches again. -/
theorem c9_counterexample :
    (runTrace [(excRefreshErr, "a", 300001), (noExc, "a", 300002)]
      (initialWorld true (some []))).snd.refreshGets = 2 := by
  decide

/-- C9 (amended): over any set of gate invocations whose timestamps lie in a
window of length `BLOCKLIST_REFRESH_MS`, at most one blocklist refresh fetch
succeeds; a request arriving within `BLOCKLIST_REFRESH_MS` of the
last-refreshed timestamp issues no refresh fetch at all; and a failed fetch
leaves the timestamp unchanged, so it may be retried (promotion moreover
issues its own store reads). -/
theorem c9_amended_refresh_throttling
    (trace : List (ExcSchedule × String × Nat)) (a : Nat) (w : World)
    (e2 : ExcSchedule) (q2 : String) (t2 : Nat) (w2 : World)
    (e3 : ExcSchedule) (q3 : String) (t3 : Nat) (w3 : World)
    (ht : ∀ r ∈ trace, a ≤ r.snd.snd ∧ r.snd.snd ≤ a + BLOCKLIST_REFRESH_MS)
    (h2 : t2 - w2.lastBlocklistRefresh ≤ BLOCKLIST_REFRESH_MS)
    (h3 : e3.refreshGetErr = true) :
    (runTrace trace w).snd.refreshOks ≤ w.refreshOks + 1 ∧
    (middleware e2 q2 t2 w2).snd.refreshGets = w2.refreshGets ∧
    (middleware e3 q3 t3 w3).snd.lastBlocklistRefresh = w3.lastBlocklistRefresh :=
  ⟨runTrace_refresh_bound ht, mw_no_refresh_get h2, mw_failed_get_keeps_timestamp h3⟩

/-- Witness for C9's amended theorem on a concrete two-request trace. -/
theorem c9_witness :
    (∀ r ∈ [(noExc, "a", (5 : Nat)), (noExc, "a", 6)],
      5 ≤ r.snd.snd ∧ r.snd.snd ≤ 5 + BLOCKLIST_REFRESH_MS) ∧
    ((6 : Nat) - (initialWorld true (some [])).lastBlocklistRefresh
      ≤ BLOCKLIST_REFRESH_MS) ∧
    (excRefreshErr.refreshGetErr = true) ∧
    ((runTrace [(noExc, "a", 5), (noExc, "a", 6)]
        (initialWorld true (some []))).snd.refreshOks
      ≤ (initialWorld true (some [])).refreshOks + 1 ∧
    (middleware noExc "a" 6 (initialWorld true (some []))).snd.refreshGets
      = (initialWorld true (some [])).refreshGets ∧
    (middleware excRefreshErr "a" 7 (initialWorld true (some []))).snd.lastBlocklistRefresh
      = (initialWorld true (some [])).lastBlocklistRefresh) :=
  ⟨by decide, by decide, by decide,
    c9_amended_refresh_throttling [(noExc, "a", 5), (noExc, "a", 6)] 5 _
      noExc "a" 6 _ excRefreshErr "a" 7 _ (by decide) (by decide) (by decide)⟩

/-- C5: a non-blocked identity (absent from the local cache and from the
store's list) with no prior record or violations has its first `RATE_LIMIT`
same-window requests all pass; the `(RATE_LIMIT+1)`th request inside the
window is answered 429 (with violation count 1 and the retry delay computed
from the window expiry); and a request arriving strictly after
`windowExpiresAt` creates a fresh record with count 1 and expiry
`now + RATE_WINDOW_MS` and passes. -/
theorem c5_window_reset
    (ip : String) (t0 : Nat) (rest : List Nat) (tOver : Nat) (w : World)
    (ip2 : String) (t2 : Nat) (w2 : World) (d2 : WindowRecord)
    (hb : ip ∉ w.blockedIPs) (hs : ip ∉ w.store.getD [])
    (hrc : lookupKey w.requestCounts ip = none)
    (hvc : lookupKey w.violationCounts ip = none)
    (hlen : rest.length = RATE_LIMIT - 1)
    (hrest : ∀ t ∈ rest, t ≤ t0 + RATE_WINDOW_MS)
    (hOver : tOver ≤ t0 + RATE_WINDOW_MS)
    (hb2 : ip2 ∉ w2.blockedIPs) (hs2 : ip2 ∉ w2.store.getD [])
    (hwf2 : wfKeys w2.requestCounts)
    (hrc2 : lookupKey w2.requestCounts ip2 = some d2)
    (hexp2 : d2.expires < t2) :
    (processSeq noExc ip (t0 :: rest) w).fst
      = List.replicate RATE_LIMIT Response.next ∧
    (middleware noExc ip tOver (processSeq noExc ip (t0 :: rest) w).snd).fst
      = Response.tooMany ((t0 + RATE_WINDOW_MS - tOver + 999) / 1000) 1
          VIOLATION_THRESHOLD ∧
    (middleware noExc ip2 t2 w2).fst = Response.next ∧
    lookupKey (middleware noExc ip2 t2 w2).snd.requestCounts ip2
      = some ⟨1, t2 + RATE_WINDOW_MS⟩ := by
  obtain ⟨hf0, hrc0, hvc0, hb0, hst0, hec0⟩ := mw_fresh hb hs noExc_body hrc
  have hs0 : ip ∉ (middleware noExc ip t0 w).snd.store.getD [] := by
    rw [hst0]; exact hs
  have hk : 1 + rest.length ≤ RATE_LIMIT := by
    rw [hlen]; norm_num [RATE_LIMIT]
  obtain ⟨hseqf, hseqrc, hseqvc, hseqb, hseqst, hseqec⟩ :=
    seq_pass hb0 hs0 hrc0 hrest hk
  have hconsf : (processSeq noExc ip (t0 :: rest) w).fst
      = (middleware noExc ip t0 w).fst
        :: (processSeq noExc ip rest (middleware noExc ip t0 w).snd).fst := by
    simp only [processSeq]
  have hconss : (processSeq noExc ip (t0 :: rest) w).snd
      = (processSeq noExc ip rest (middleware noExc ip t0 w).snd).snd := by
    simp only [processSeq]
  refine ⟨?_, ?_, ?_, ?_⟩
  · rw [hconsf, hf0, hseqf, hlen]
    decide
  · rw [hconss]
    have hsF : ip ∉ (processSeq noExc ip rest
        (middleware noExc ip t0 w).snd).snd.store.getD [] := by
      rw [hseqst, hst0]; exact hs
    have hvF : (lookupKey (processSeq noExc ip rest
          (middleware noExc ip t0 w).snd).snd.violationCounts ip).getD 0 + 1
        < VIOLATION_THRESHOLD := by
      rw [hseqvc, hvc0, hvc]
      norm_num [VIOLATION_THRESHOLD]
    have hcF : RATE_LIMIT <
        (⟨1 + rest.length, t0 + RATE_WINDOW_MS⟩ : WindowRecord).count + 1 := by
      show RATE_LIMIT < 1 + rest.length + 1
      rw [hlen]; norm_num [RATE_LIMIT]
    obtain ⟨hfst, -, -, -, -, -⟩ :=
      mw_over_429 hseqb hsF noExc_body hseqrc hOver hcF hvF
    rw [hfst, hseqvc, hvc0, hvc]
    rfl
  · exact (mw_expired_fresh hb2 hs2 noExc_body hwf2 hrc2 hexp2).1
  · exact (mw_expired_fresh hb2 hs2 noExc_body hwf2 hrc2 hexp2).2.1

/-- Witness for C5 at a fresh instance: 100 requests at time 0, the 101st
still inside the window, and the window-reset part on a second world whose
record has expired. -/
theorem c5_witness :
    ("a" ∉ (initialWorld false none).blockedIPs) ∧
    ((List.replicate 99 (0 : Nat)).length = RATE_LIMIT - 1) ∧
    (∀ t ∈ List.replicate 99 (0 : Nat), t ≤ 0 + RATE_WINDOW_MS) ∧
    ((0 : Nat) ≤ 0 + RATE_WINDOW_MS) ∧
    (wfKeys ({ initialWorld false none with
        requestCounts := [("b", ⟨5, 10⟩)] } : World).requestCounts) ∧
    (lookupKey ({ initialWorld false none with
        requestCounts := [("b", ⟨5, 10⟩)] } : World).requestCounts "b"
      = some ⟨5, 10⟩) ∧
    ((⟨5, 10⟩ : WindowRecord).expires < 11) ∧
    ((processSeq noExc "a" (0 :: List.replicate 99 0) (initialWorld false none)).fst
      = List.replicate RATE_LIMIT Response.next ∧
    (middleware noExc "a" 0
        (processSeq noExc "a" (0 :: List.replicate 99 0) (initialWorld false none)).snd).fst
      = Response.tooMany ((0 + RATE_WINDOW_MS - 0 + 999) / 1000) 1 VIOLATION_THRESHOLD ∧
    (middleware noExc "b" 11 { initialWorld false none with
        requestCounts := [("b", ⟨5, 10⟩)] }).fst = Response.next ∧
    lookupKey (middleware noExc "b" 11 { initialWorld false none with
        requestCounts := [("b", ⟨5, 10⟩)] }).snd.requestCounts "b"
      = some ⟨1, 11 + RATE_WINDOW_MS⟩) :=
  ⟨by decide, by decide, by decide, by decide, by decide, by decide, by decide,
    c5_window_reset "a" 0 (List.replicate 99 0) 0 (initialWorld false none)
      "b" 11 _ ⟨5, 10⟩ (by decide) (by decide) (by decide) (by decide)
      (by decide) (by decide) (by decide) (by decide) (by decide) (by decide)
      (by decide) (by decide)⟩

/-- C6: an identity with accumulated violations whose window has expired is,
on its next request, given a fresh window record (count 1) together with a
purged violation record — the two are removed together, the request passes,
and the violation count observed afterwards is absent (0).  A later overflow
in the fresh window is answered 429 with violation count 1, not an immediate
block. -/
theorem c6_violation_decay
    (ip : String) (t1 : Nat) (rest : List Nat) (tOver : Nat) (w : World)
    (d : WindowRecord) (v : Nat)
    (hb : ip ∉ w.blockedIPs) (hs : ip ∉ w.store.getD [])
    (hwf : wfKeys w.requestCounts)
    (hrc : lookupKey w.requestCounts ip = some d)
    (hvc : lookupKey w.violationCounts ip = some v)
    (hexp : d.expires < t1)
    (hlen : rest.length = RATE_LIMIT - 1)
    (hrest : ∀ t ∈ rest, t ≤ t1 + RATE_WINDOW_MS)
    (hOver : tOver ≤ t1 + RATE_WINDOW_MS) :
    (middleware noExc ip t1 w).fst = Response.next ∧
    lookupKey (middleware noExc ip t1 w).snd.violationCounts ip = none ∧
    lookupKey (middleware noExc ip t1 w).snd.requestCounts ip
      = some ⟨1, t1 + RATE_WINDOW_MS⟩ ∧
    (processSeq noExc ip rest (middleware noExc ip t1 w).snd).fst
      = List.replicate (RATE_LIMIT - 1) Response.next ∧
    (middleware noExc ip tOver
        (processSeq noExc ip rest (middleware noExc ip t1 w).snd).snd).fst
      = Response.tooMany ((t1 + RATE_WINDOW_MS - tOver + 999) / 1000) 1
          VIOLATION_THRESHOLD := by
  obtain ⟨hf1, hrc1, hvcn, hb1, hst1, hec1⟩ :=
    mw_expired_fresh hb hs noExc_body hwf hrc hexp
  have hs1 : ip ∉ (middleware noExc ip t1 w).snd.store.getD [] := by
    rw [hst1]; exact hs
  have hk : 1 + rest.length ≤ RATE_LIMIT := by
    rw [hlen]; norm_num [RATE_LIMIT]
  obtain ⟨hseqf, hseqrc, hseqvc, hseqb, hseqst, hseqec⟩ :=
    seq_pass hb1 hs1 hrc1 hrest hk
  refine ⟨hf1, hvcn, hrc1, by rw [hseqf, hlen], ?_⟩
  have hsF : ip ∉ (processSeq noExc ip rest
      (middleware noExc ip t1 w).snd).snd.store.getD [] := by
    rw [hseqst, hst1]; exact hs
  have hvF : (lookupKey (processSeq noExc ip rest
        (middleware noExc ip t1 w).snd).snd.violationCounts ip).getD 0 + 1
      < VIOLATION_THRESHOLD := by
    rw [hseqvc, hvcn]
    norm_num [VIOLATION_THRESHOLD]
  have hcF : RATE_LIMIT <
      (⟨1 + rest.length, t1 + RATE_WINDOW_MS⟩ : WindowRecord).count + 1 := by
    show RATE_LIMIT < 1 + rest.length + 1
    rw [hlen]; norm_num [RATE_LIMIT]
  obtain ⟨hfst, -, -, -, -, -⟩ :=
    mw_over_429 hseqb hsF noExc_body hseqrc hOver hcF hvF
  rw [hfst, hseqvc, hvcn]
  rfl

/-- Witness for C6: one stored violation, an expired record, then a fresh
window of 99 more requests and an overflow answered 429 with count 1. -/
theorem c6_witness :
    ("a" ∉ ({ initialWorld false none with
        requestCounts := [("a", ⟨200, 10⟩)],
        violationCounts := [("a", 2)] } : World).blockedIPs) ∧
    (lookupKey ({ initialWorld false none with
        requestCounts := [("a", ⟨200, 10⟩)],
        violationCounts := [("a", 2)] } : World).requestCounts "a"
      = some ⟨200, 10⟩) ∧
    (lookupKey ({ initialWorld false none with
        requestCounts := [("a", ⟨200, 10⟩)],
        violationCounts := [("a", 2)] } : World).violationCounts "a"
      = some 2) ∧
    ((⟨200, 10⟩ : WindowRecord).expires < 11) ∧
    ((List.replicate 99 (11 : Nat)).length = RATE_LIMIT - 1) ∧
    ((middleware noExc "a" 11 { initialWorld false none with
        requestCounts := [("a", ⟨200, 10⟩)],
        violationCounts := [("a", 2)] }).fst = Response.next ∧
    lookupKey (middleware noExc "a" 11 { initialWorld false none with
        requestCounts := [("a", ⟨200, 10⟩)],
        violationCounts := [("a", 2)] }).snd.violationCounts "a" = none ∧
    lookupKey (middleware noExc "a" 11 { initialWorld false none with
        requestCounts := [("a", ⟨200, 10⟩)],
        violationCounts := [("a", 2)] }).snd.requestCounts "a"
      = some ⟨1, 11 + RATE_WINDOW_MS⟩ ∧
    (processSeq noExc "a" (List.replicate 99 11)
        (middleware noExc "a" 11 { initialWorld false none with
          requestCounts := [("a", ⟨200, 10⟩)],
          violationCounts := [("a", 2)] }).snd).fst
      = List.replicate (RATE_LIMIT - 1) Response.next ∧
    (middleware noExc "a" 12
        (processSeq noExc "a" (List.replicate 99 11)
          (middleware noExc "a" 11 { initialWorld false none with
            requestCounts := [("a", ⟨200, 10⟩)],
            violationCounts := [("a", 2)] }).snd).snd).fst
      = Response.tooMany ((11 + RATE_WINDOW_MS - 12 + 999) / 1000) 1
          VIOLATION_THRESHOLD) :=
  ⟨by decide, by decide, by decide, by decide, by decide,
    c6_violation_decay "a" 11 (List.replicate 99 11) 12 _ ⟨200, 10⟩ 2
      (by decide) (by decide) (by decide) (by decide) (by decide) (by decide)
      (by decide) (by decide) (by decide)⟩

/-- C7: requests from an identity that the gate's block-cache check (after
any in-request refresh) does not find blocked keep incrementing the window
count, including those answered 429, and every request whose incremented
count exceeds `RATE_LIMIT` records one violation; consequently an identity
issuing `RATE_LIMIT + VIOLATION_THRESHOLD` requests inside one window is
promoted to the block cache and answered 403 on the last of them, inside
that same window, with no multi-window history: after `RATE_LIMIT` passes,
the next two requests are answered 429 with violation counts 1 and 2, the
following one 403, the identity enters the cache, and its window count shows
every request counted. -/
theorem c7_single_window_block
    (ip : String) (t0 : Nat) (rest : List Nat) (ta tb tc : Nat) (w : World)
    (e2 : ExcSchedule) (q2 : String) (n2 : Nat) (w2 : World) (d2 : WindowRecord)
    (e3 : ExcSchedule) (q3 : String) (n3 : Nat) (w3 : World) (d3 : WindowRecord)
    (hb : ip ∉ w.blockedIPs) (hs : ip ∉ w.store.getD [])
    (hrc : lookupKey w.requestCounts ip = none)
    (hvc : lookupKey w.violationCounts ip = none)
    (hlen : rest.length = RATE_LIMIT - 1)
    (hrest : ∀ t ∈ rest, t ≤ t0 + RATE_WINDOW_MS)
    (hta : ta ≤ t0 + RATE_WINDOW_MS) (htb : tb ≤ t0 + RATE_WINDOW_MS)
    (htc : tc ≤ t0 + RATE_WINDOW_MS)
    (hb2 : q2 ∉ w2.blockedIPs) (hs2 : q2 ∉ w2.store.getD [])
    (hbody2 : e2.bodyExc = false)
    (hrc2 : lookupKey w2.requestCounts q2 = some d2) (hn2 : n2 ≤ d2.expires)
    (hb3 : q3 ∉ w3.blockedIPs) (hs3 : q3 ∉ w3.store.getD [])
    (hbody3 : e3.bodyExc = false)
    (hrc3 : lookupKey w3.requestCounts q3 = some d3) (hn3 : n3 ≤ d3.expires)
    (hc3 : RATE_LIMIT < d3.count + 1) :
    (processSeq noExc ip (t0 :: rest) w).fst
      = List.replicate RATE_LIMIT Response.next ∧
    (middleware noExc ip ta (processSeq noExc ip (t0 :: rest) w).snd).fst
      = Response.tooMany ((t0 + RATE_WINDOW_MS - ta + 999) / 1000) 1
          VIOLATION_THRESHOLD ∧
    (middleware noExc ip tb (middleware noExc ip ta
        (processSeq noExc ip (t0 :: rest) w).snd).snd).fst
      = Response.tooMany ((t0 + RATE_WINDOW_MS - tb + 999) / 1000) 2
          VIOLATION_THRESHOLD ∧
    (middleware noExc ip tc (middleware noExc ip tb (middleware noExc ip ta
        (processSeq noExc ip (t0 :: rest) w).snd).snd).snd).fst
      = Response.forbidden ∧
    ip ∈ (middleware noExc ip tc (middleware noExc ip tb (middleware noExc ip ta
        (processSeq noExc ip (t0 :: rest) w).snd).snd).snd).snd.blockedIPs ∧
    lookupKey (middleware noExc ip tc (middleware noExc ip tb (middleware noExc ip ta
        (processSeq noExc ip (t0 :: rest) w).snd).snd).snd).snd.requestCounts ip
      = some ⟨RATE_LIMIT + VIOLATION_THRESHOLD, t0 + RATE_WINDOW_MS⟩ ∧
    lookupKey (middleware e2 q2 n2 w2).snd.requestCounts q2
      = some ⟨d2.count + 1, d2.expires⟩ ∧
    lookupKey (middleware e3 q3 n3 w3).snd.violationCounts q3
      = some ((lookupKey w3.violationCounts q3).getD 0 + 1) := by
  obtain ⟨hf0, hrc0, hvc0, hb0, hst0, hec0⟩ := mw_fresh hb hs noExc_body hrc
  have hs0 : ip ∉ (middleware noExc ip t0 w).snd.store.getD [] := by
    rw [hst0]; exact hs
  have hk : 1 + rest.length ≤ RATE_LIMIT := by
    rw [hlen]; norm_num [RATE_LIMIT]
  obtain ⟨hseqf, hseqrc, hseqvc, hseqb, hseqst, hseqec⟩ :=
    seq_pass hb0 hs0 hrc0 hrest hk
  have hconsf : (processSeq noExc ip (t0 :: rest) w).fst
      = (middleware noExc ip t0 w).fst
        :: (processSeq noExc ip rest (middleware noExc ip t0 w).snd).fst := by
    simp only [processSeq]
  have hconss : (processSeq noExc ip (t0 :: rest) w).snd
      = (processSeq noExc ip rest (middleware noExc ip t0 w).snd).snd := by
    simp only [processSeq]
  -- facts of the state reached after the first `RATE_LIMIT` requests
  have hS0rc : lookupKey (processSeq noExc ip (t0 :: rest) w).snd.requestCounts ip
      = some ⟨1 + rest.length, t0 + RATE_WINDOW_MS⟩ := by rw [hconss]; exact hseqrc
  have hS0vc : lookupKey (processSeq noExc ip (t0 :: rest) w).snd.violationCounts ip
      = none := by rw [hconss, hseqvc, hvc0, hvc]
  have hS0b : ip ∉ (processSeq noExc ip (t0 :: rest) w).snd.blockedIPs := by
    rw [hconss]; exact hseqb
  have hS0s : ip ∉ (processSeq noExc ip (t0 :: rest) w).snd.store.getD [] := by
    rw [hconss, hseqst, hst0]; exact hs
  -- request `RATE_LIMIT + 1`: first overflow, 429, violation count 1
  have hcA : RATE_LIMIT <
      (⟨1 + rest.length, t0 + RATE_WINDOW_MS⟩ : WindowRecord).count + 1 := by
    show RATE_LIMIT < 1 + rest.length + 1
    rw [hlen]; norm_num [RATE_LIMIT]
  have hvA : (lookupKey (processSeq noExc ip (t0 :: rest) w).snd.violationCounts ip).getD 0 + 1
      < VIOLATION_THRESHOLD := by
    rw [hS0vc]; norm_num [VIOLATION_THRESHOLD]
  obtain ⟨hfA, hrcA, hvcA, hbA, hstA, hecA⟩ :=
    mw_over_429 hS0b hS0s noExc_body hS0rc hta hcA hvA
  have hsA : ip ∉ (middleware noExc ip ta
      (processSeq noExc ip (t0 :: rest) w).snd).snd.store.getD [] := by
    rw [hstA]; exact hS0s
  -- request `RATE_LIMIT + 2`: second overflow, 429, violation count 2
  have hcB : RATE_LIMIT <
      (⟨(⟨1 + rest.length, t0 + RATE_WINDOW_MS⟩ : WindowRecord).count + 1,
        (⟨1 + rest.length, t0 + RATE_WINDOW_MS⟩ : WindowRecord).expires⟩
          : WindowRecord).count + 1 := by
    show RATE_LIMIT < 1 + rest.length + 1 + 1
    rw [hlen]; norm_num [RATE_LIMIT]
  have hvB : (lookupKey (middleware noExc ip ta
        (processSeq noExc ip (t0 :: rest) w).snd).snd.violationCounts ip).getD 0 + 1
      < VIOLATION_THRESHOLD := by
    rw [hvcA, hS0vc]; norm_num [VIOLATION_THRESHOLD]
  obtain ⟨hfB, hrcB, hvcB, hbB, hstB, hecB⟩ :=
    mw_over_429 hbA hsA noExc_body hrcA htb hcB hvB
  have hsB : ip ∉ (middleware noExc ip tb (middleware noExc ip ta
      (processSeq noExc ip (t0 :: rest) w).snd).snd).snd.store.getD [] := by
    rw [hstB]; exact hsA
  -- request `RATE_LIMIT + 3`: third overflow reaches the threshold, 403
  have hcC : RATE_LIMIT <
      (⟨(⟨(⟨1 + rest.length, t0 + RATE_WINDOW_MS⟩ : WindowRecord).count + 1,
          (⟨1 + rest.length, t0 + RATE_WINDOW_MS⟩ : WindowRecord).expires⟩
            : WindowRecord).count + 1,
        (⟨(⟨1 + rest.length, t0 + RATE_WINDOW_MS⟩ : WindowRecord).count + 1,
          (⟨1 + rest.length, t0 + RATE_WINDOW_MS⟩ : WindowRecord).expires⟩
            : WindowRecord).expires⟩ : WindowRecord).count + 1 := by
    show RATE_LIMIT < 1 + rest.length + 1 + 1 + 1
    rw [hlen]; norm_num [RATE_LIMIT]
  have hvC : VIOLATION_THRESHOLD ≤
      (lookupKey (middleware noExc ip tb (middleware noExc ip ta
        (processSeq noExc ip (t0 :: rest) w).snd).snd).snd.violationCounts ip).getD 0
        + 1 := by
    rw [hvcB, hvcA, hS0vc]; norm_num [VIOLATION_THRESHOLD]
  obtain ⟨hfC, hmC, hrcC, -⟩ :=
    mw_over_block hbB hsB noExc_body hrcB htc hcC hvC
  have hcount : 1 + rest.length + 1 + 1 + 1
      = RATE_LIMIT + VIOLATION_THRESHOLD := by
    rw [hlen]; norm_num [RATE_LIMIT, VIOLATION_THRESHOLD]
  refine ⟨?_, ?_, ?_, hfC, hmC, ?_, ?_, ?_⟩
  · rw [hconsf, hf0, hseqf, hlen]
    decide
  · rw [hfA, hS0vc]
    rfl
  · rw [hfB, hvcA, hS0vc]
    rfl
  · rw [hrcC]
    show some (⟨1 + rest.length + 1 + 1 + 1, t0 + RATE_WINDOW_MS⟩ : WindowRecord)
      = some ⟨RATE_LIMIT + VIOLATION_THRESHOLD, t0 + RATE_WINDOW_MS⟩
    rw [hcount]
  · exact mw_count_increment hb2 hs2 hbody2 hrc2 hn2
  · exact mw_overflow_violation hb3 hs3 hbody3 hrc3 hn3 hc3

/-- Witness for C7: 103 requests at time 0 from a fresh instance, plus the
generic increment and violation conjuncts at concrete live-window worlds. -/
theorem c7_witness :
    ((List.replicate 99 (0 : Nat)).length = RATE_LIMIT - 1) ∧
    (∀ t ∈ List.replicate 99 (0 : Nat), t ≤ 0 + RATE_WINDOW_MS) ∧
    ((0 : Nat) ≤ 0 + RATE_WINDOW_MS) ∧
    (lookupKey ({ initialWorld false none with
        requestCounts := [("g", ⟨7, 100⟩)] } : World).requestCounts "g"
      = some ⟨7, 100⟩) ∧
    ((50 : Nat) ≤ (⟨7, 100⟩ : WindowRecord).expires) ∧
    (lookupKey ({ initialWorld false none with
        requestCounts := [("h", ⟨150, 100⟩)] } : World).requestCounts "h"
      = some ⟨150, 100⟩) ∧
    (RATE_LIMIT < (⟨150, 100⟩ : WindowRecord).count + 1) ∧
    ((processSeq noExc "a" (0 :: List.replicate 99 0) (initialWorld false none)).fst
      = List.replicate RATE_LIMIT Response.next ∧
    (middleware noExc "a" 0
        (processSeq noExc "a" (0 :: List.replicate 99 0) (initialWorld false none)).snd).fst
      = Response.tooMany ((0 + RATE_WINDOW_MS - 0 + 999) / 1000) 1 VIOLATION_THRESHOLD ∧
    (middleware noExc "a" 0 (middleware noExc "a" 0
        (processSeq noExc "a" (0 :: List.replicate 99 0) (initialWorld false none)).snd).snd).fst
      = Response.tooMany ((0 + RATE_WINDOW_MS - 0 + 999) / 1000) 2 VIOLATION_THRESHOLD ∧
    (middleware noExc "a" 0 (middleware noExc "a" 0 (middleware noExc "a" 0
        (processSeq noExc "a" (0 :: List.replicate 99 0) (initialWorld false none)).snd).snd).snd).fst
      = Response.forbidden ∧
    "a" ∈ (middleware noExc "a" 0 (middleware noExc "a" 0 (middleware noExc "a" 0
        (processSeq noExc "a" (0 :: List.replicate 99 0) (initialWorld false none)).snd).snd).snd).snd.blockedIPs ∧
    lookupKey (middleware noExc "a" 0 (middleware noExc "a" 0 (middleware noExc "a" 0
        (processSeq noExc "a" (0 :: List.replicate 99 0) (initialWorld false none)).snd).snd).snd).snd.requestCounts "a"
      = some ⟨RATE_LIMIT + VIOLATION_THRESHOLD, 0 + RATE_WINDOW_MS⟩ ∧
    lookupKey (middleware noExc "g" 50 { initialWorld false none with
        requestCounts := [("g", ⟨7, 100⟩)] }).snd.requestCounts "g"
      = some ⟨(⟨7, 100⟩ : WindowRecord).count + 1, (⟨7, 100⟩ : WindowRecord).expires⟩ ∧
    lookupKey (middleware noExc "h" 60 { initialWorld false none with
        requestCounts := [("h", ⟨150, 100⟩)] }).snd.violationCounts "h"
      = some ((lookupKey ({ initialWorld false none with
          requestCounts := [("h", ⟨150, 100⟩)] } : World).violationCounts "h").getD 0 + 1)) :=
  ⟨by decide, by decide, by decide, by decide, by decide, by decide, by decide,
    c7_single_window_block "a" 0 (List.replicate 99 0) 0 0 0
      (initialWorld false none) noExc "g" 50 _ ⟨7, 100⟩ noExc "h" 60 _ ⟨150, 100⟩
      (by decide) (by decide) (by decide) (by decide) (by decide) (by decide)
      (by decide) (by decide) (by decide) (by decide) (by decide) (by decide)
      (by decide) (by decide) (by decide) (by decide) (by decide) (by decide)
      (by decide) (by decide)⟩
